import Mathlib

/-!
SplashBackgroundRenderer: a shallow embedding of `src/BackgroundRenderer/SplashBackgroundRenderer.cc`
(pdf2htmlEX) and the properties of its four member functions `startPage`,
`drawChar`, `embed_image` and `dump_image`.

Conventions of the embedding:

* A C++ `int` is a 32-bit two's complement integer, carried in an `Int`.
  Every `int` addition, subtraction and multiplication of the source goes
  through `wrap32`: a result outside `[-2 ^ 31, 2 ^ 31)`, undefined in C++,
  wraps as it does on the usual targets.  The `%x` conversion of `printf`
  reads its argument modulo `2 ^ 32`.
* A C++ `double` is an IEEE 754 binary64 number: a finite one is carried as
  its value in `ℚ`, and every operation of the source rounds its exact result
  to the nearest double, ties to even (`roundDouble`).
* Byte addresses inside the pixel buffer are offsets from `getDataPtr()`;
  pointer arithmetic on them does not wrap.
* A C++ member function that mutates the object or performs output takes the
  state it touches as an argument and returns the new state; a function that
  can `throw` or `abort` returns the state reached together with the way it
  ended, because the effects made before that point persist.
* Calls into the file API and the PNG writer are recorded, in order, in
  `World.io`; whether such a call succeeds is read from `Env`.
-/

namespace pdf2htmlEX

/-! ## Types of the collaborating libraries -/

/-- Font kinds reported by `GfxFont::getType()`. -/
inductive GfxFontType
  | fontUnknownType
  | fontType1
  | fontType1C
  | fontType1COT
  | fontType3
  | fontTrueType
  | fontTrueTypeOT
  | fontCIDType0
  | fontCIDType0C
  | fontCIDType0COT
  | fontCIDType2
  | fontCIDType2OT
  deriving DecidableEq, Repr

/-- The two attributes of a `GfxFont` that the renderer reads. -/
structure GfxFont where
  /-- Result of `getWMode()`. -/
  wMode : Int
  /-- Result of `getType()`. -/
  type : GfxFontType
  deriving DecidableEq, Repr

/-- The part of `GfxState` the renderer reads: `getFont()`, `none` for a null
pointer. -/
structure GfxState where
  font : Option GfxFont
  deriving DecidableEq, Repr

/-- Arguments of `drawChar` other than the graphics state. -/
structure CharArgs where
  x : ℚ
  y : ℚ
  dx : ℚ
  dy : ℚ
  originX : ℚ
  originY : ℚ
  code : Nat
  nBytes : Int
  u : List Nat
  deriving DecidableEq, Repr

/-- Pixel layouts of a `SplashBitmap`. -/
inductive SplashColorMode
  | splashModeMono1
  | splashModeMono8
  | splashModeRGB8
  | splashModeBGR8
  | splashModeXBGR8
  deriving DecidableEq, Repr

/-- Geometry of the bitmap a `SplashOutputDev` renders into. -/
structure SplashBitmap where
  /-- Result of `getMode()`. -/
  mode : SplashColorMode
  width : Int
  /-- Result of `getBitmapHeight()`. -/
  height : Int
  /-- Result of `getRowSize()`: bytes from one scanline to the next. -/
  rowSize : Int
  deriving DecidableEq, Repr

/-- A pixel operation carried out by the base class `SplashOutputDev`. -/
inductive BaseOp
  | startPage (pageNum : Int)
  | drawChar (state : GfxState) (args : CharArgs)
  deriving DecidableEq, Repr

/-- State inherited from `SplashOutputDev`: the bitmap, the modified region
(`getModRegion`) and the pixel operations the base class has carried out.
The extent of the bitmap is a non-negative `int`, and the modified region
covers only pixels of the bitmap: its minima are at least 0 and its maxima
below the extent, which is how the rasteriser keeps it, empty or not. -/
structure SplashOutputDev where
  bitmap : SplashBitmap
  modXMin : Int
  modYMin : Int
  modXMax : Int
  modYMax : Int
  ops : List BaseOp
  inBitmap : 0 ≤ bitmap.width ∧ bitmap.width < 2147483648
    ∧ 0 ≤ bitmap.height ∧ bitmap.height < 2147483648
    ∧ 0 ≤ modXMin ∧ 0 ≤ modYMin ∧ modXMax < bitmap.width ∧ modYMax < bitmap.height

/-- Base-class `SplashOutputDev::startPage`: as the comment above
`SplashBackgroundRenderer::startPage` records, it paints the whole page with
the background colour, which sets the modified region to the whole page. -/
def SplashOutputDev.startPage (dev : SplashOutputDev) (pageNum : Int) : SplashOutputDev :=
  { dev with
    modXMin := 0
    modYMin := 0
    modXMax := dev.bitmap.width - 1
    modYMax := dev.bitmap.height - 1
    ops := dev.ops ++ [BaseOp.startPage pageNum]
    inBitmap := by
      have h := dev.inBitmap
      omega }

/-- Rasteriser `clearModRegion`: the minima go to the bitmap extent and the
maxima to `-1`. -/
def SplashOutputDev.clearModRegion (dev : SplashOutputDev) : SplashOutputDev :=
  { dev with
    modXMin := dev.bitmap.width
    modYMin := dev.bitmap.height
    modXMax := -1
    modYMax := -1
    inBitmap := by
      have h := dev.inBitmap
      omega }

/-- Base-class `SplashOutputDev::drawChar`: the glyph is rasterised; the
embedding records the operation. -/
def SplashOutputDev.drawChar (dev : SplashOutputDev) (state : GfxState) (args : CharArgs) :
    SplashOutputDev :=
  { dev with ops := dev.ops ++ [BaseOp.drawChar state args] }

/-! ## Machine arithmetic -/

/-- The 32-bit two's complement `int` that has the bit pattern of `n`. -/
def wrap32 (n : Int) : Int :=
  (n + 2147483648) % 4294967296 - 2147483648

/-- Addition of two `int`. -/
def int_add (a b : Int) : Int := wrap32 (a + b)

/-- Subtraction of two `int`. -/
def int_sub (a b : Int) : Int := wrap32 (a - b)

/-- Multiplication of two `int`. -/
def int_mul (a b : Int) : Int := wrap32 (a * b)

/-- A `double`: `some q` is the finite double of value `q`; `none` stands for
every double that is not finite, an infinity or a NaN.  The sign of a zero is
not represented. -/
abbrev Double := Option ℚ

/-- The integer nearest to `y`, the even one of the two when `y` lies half way
between them. -/
def roundEven (y : ℚ) : Int :=
  if y - ⌊y⌋ < 1 / 2 then ⌊y⌋
  else if 1 / 2 < y - ⌊y⌋ then ⌊y⌋ + 1
  else if ⌊y⌋ % 2 = 0 then ⌊y⌋ else ⌊y⌋ + 1

/-- The exponent of the last place of the double format at `x`: 52 below the
binary exponent of `x`, and never below that of the subnormal numbers. -/
def doubleExp (x : ℚ) : Int := max (Int.log 2 |x| - 52) (-1074)

/-- Rounding of an exact result to a double: to the nearest multiple of
`2 ^ doubleExp x`, ties to even, and to an infinity (`none`) when that is
`2 ^ 1024` or more in magnitude. -/
def roundDouble (x : ℚ) : Double :=
  if x = 0 then some 0
  else if |(roundEven (x / 2 ^ doubleExp x) : ℚ) * 2 ^ doubleExp x| < 2 ^ (1024 : ℤ) then
    some ((roundEven (x / 2 ^ doubleExp x) : ℚ) * 2 ^ doubleExp x)
  else none

/-- The values that are finite doubles. -/
def isDouble (q : ℚ) : Prop := roundDouble q = some q

/-- Conversion `(double)n` of an `int`. -/
def double_of_int (n : Int) : Double := roundDouble n

/-- Product of two doubles; a factor that is not finite gives a product that
is not finite. -/
def double_mul (a b : Double) : Double :=
  a.bind fun x => b.bind fun y => roundDouble (x * y)

/-- Difference of two doubles. -/
def double_sub (a b : Double) : Double :=
  a.bind fun x => b.bind fun y => roundDouble (x - y)

/-- Quotient of a double by a finite double; division by zero gives an
infinity or a NaN. -/
def double_div (a : Double) (b : ℚ) : Double :=
  a.bind fun x => if b = 0 then none else roundDouble (x / b)

/-! ## Configuration and the HTML renderer -/

/-- The fields of `Param` the renderer reads; `h_dpi` and `v_dpi` are finite
doubles. -/
structure Param where
  fallback : Bool
  embed_image : Bool
  tmp_dir : String
  dest_dir : String
  h_dpi : ℚ
  v_dpi : ℚ
  use_cropbox : Bool

/-- The four length managers of `all_manager` that `embed_image` uses; each is
represented by the values passed to its `install`, oldest first. -/
structure AllManager where
  left : List Double
  bottom : List Double
  width : List Double
  height : List Double
  deriving DecidableEq

/-- The members of `HTMLRenderer` that `embed_image` touches. -/
structure HTMLRenderer where
  /-- Text written so far to `*f_curpage`. -/
  f_curpage : String
  /-- Paths handed to `tmp_files.add`, oldest first. -/
  tmp_files : List String
  all_manager : AllManager
  deriving DecidableEq

/-- Modelled from the spec: `TmpFiles::add` is not part of the source file; the
specification describes the temp-file registry as an append-only list of the
created temporary file paths. -/
def HTMLRenderer.tmp_files_add (html : HTMLRenderer) (fn : String) : HTMLRenderer :=
  { html with tmp_files := html.tmp_files ++ [fn] }

/-- A call into the C file API, `std::ifstream` or the PNG writer. -/
inductive IoCall
  | fopen_wb (filename : String)
  | png_init (width height : Int) (h_dpi v_dpi : ℚ)
  | png_writePointers (pointers : List Int) (height : Int)
  | png_delete
  | fclose (filename : String)
  | ifstream_open (path : String)
  deriving DecidableEq, Repr

/-- What the surroundings of the renderer answer: constants declared in other
headers, and the outcome of each external call. -/
structure Env where
  /-- Whether the file is compiled with `NDEBUG`, which removes every
  `assert`. -/
  NDEBUG : Bool
  /-- Result of `html_renderer->text_zoom_factor()`, a finite double. -/
  text_zoom_factor : ℚ
  /-- The constant `DEFAULT_DPI`, a finite double. -/
  DEFAULT_DPI : ℚ
  BACKGROUND_IMAGE_CN : String
  LEFT_CN : String
  BOTTOM_CN : String
  WIDTH_CN : String
  HEIGHT_CN : String
  /-- Text printed for the result of `install`, from the values the manager
  holds already and the new value. -/
  install_text : List Double → Double → String
  /-- Whether `fopen(filename, "wb")` returns a stream. -/
  fopen_wb_ok : String → Bool
  /-- Result of `PNGWriter::init`. -/
  png_init_ok : Int → Int → ℚ → ℚ → Bool
  /-- Result of `PNGWriter::writePointers`. -/
  png_write_ok : List Int → Int → Bool
  /-- Whether the `ifstream` opened on the path is good. -/
  ifstream_ok : String → Bool
  /-- Text `Base64Stream` prints for the file at the path. -/
  base64 : String → String

/-- Everything the member functions read or change. -/
structure World where
  dev : SplashOutputDev
  html : HTMLRenderer
  io : List IoCall

/-- The ways a call ends without returning: a value given to `throw`, or the
end of the process. -/
inductive Thrown
  /-- Value thrown as a string literal: `throw "..."`. -/
  | cstr (msg : String)
  /-- Value thrown as a `std::string`. -/
  | str (msg : String)
  /-- Nothing is thrown: an `assert` that is compiled in has failed and
  `abort()` ends the process. -/
  | abort (cond : String)
  deriving DecidableEq, Repr

/-! ## `startPage` and `drawChar` -/

/-- Member `SplashBackgroundRenderer::startPage`. -/
def startPage (dev : SplashOutputDev) (pageNum : Int) : SplashOutputDev :=
  (dev.startPage pageNum).clearModRegion

/-- Member `SplashBackgroundRenderer::drawChar`: the glyph goes to the base
class under the condition of the `if`, and nothing else happens. -/
def drawChar (param : Param) (dev : SplashOutputDev) (state : GfxState) (args : CharArgs) :
    SplashOutputDev :=
  if param.fallback
      || (match state.font with
          | none => false
          | some font =>
            decide (font.wMode ≠ 0) || decide (font.type = GfxFontType.fontType3))
  then dev.drawChar state args
  else dev

/-! ## `str_fmt` -/

/-- The hexadecimal digit `printf` prints for a value below sixteen: `0` to
`9`, then `a` to `f`. -/
def hexChar (d : Nat) : Char :=
  if d < 10 then Char.ofNat ('0'.toNat + d) else Char.ofNat ('a'.toNat + (d - 10))

/-- Digits of `n` in base sixteen in front of `acc`, most significant first;
`fuel` bounds the number of digits. -/
def toHexAux : Nat → Nat → List Char → List Char
  | 0, _, acc => acc
  | fuel + 1, n, acc =>
    if n < 16 then hexChar n :: acc
    else toHexAux fuel (n / 16) (hexChar (n % 16) :: acc)

/-- The `%x` conversion of `printf` applied to an `int`: the argument is read
as an `unsigned int` (32 bits, so at most eight digits) and printed in
hexadecimal. -/
def printf_x (v : Int) : List Char :=
  toHexAux 8 (v % 2 ^ 32).toNat []

/-- An argument of a format string. -/
inductive FmtArg
  | s (v : String)
  | x (v : Int)

/-- Expansion of a `printf` format with the conversions `%s` and `%x`. -/
def fmtGo : List Char → List FmtArg → List Char
  | '%' :: 's' :: rest, FmtArg.s v :: args => v.data ++ fmtGo rest args
  | '%' :: 'x' :: rest, FmtArg.x v :: args => printf_x v ++ fmtGo rest args
  | c :: rest, args => c :: fmtGo rest args
  | [], _ => []

/-- Modelled from the spec: `HTMLRenderer::str_fmt` is not part of the source
file.  It is taken to format as `printf` does, here with the conversions `%s`
and `%x`, which gives the file names `bg<hex(pageNumber)>.png` of the
specification. -/
def str_fmt (fmt : String) (args : List FmtArg) : String :=
  String.mk (fmtGo fmt.data args)

/-- Value of a lowercase hexadecimal digit; no other character has one. -/
def hexDigitValue (c : Char) : Option Nat :=
  if '0'.toNat ≤ c.toNat ∧ c.toNat ≤ '9'.toNat then some (c.toNat - '0'.toNat)
  else if 'a'.toNat ≤ c.toNat ∧ c.toNat ≤ 'f'.toNat then some (c.toNat - 'a'.toNat + 10)
  else none

/-- Reading of "lowercase hexadecimal representation": the number a list of
lowercase hexadecimal digits denotes, most significant digit first, and `none`
as soon as another character occurs (an upper-case digit, a sign, the `x` of
a `0x` prefix). -/
def hexValue (cs : List Char) : Option Nat :=
  cs.foldl
    (fun acc c =>
      match acc, hexDigitValue c with
      | some a, some d => some (16 * a + d)
      | _, _ => none)
    (some 0)

/-! ## `dump_image` -/

/-- The `for` loop of `dump_image` from the state `(i, p, pointers)`: while
`i < height`, `p` is pushed and advanced by `row_size`.  `fuel` bounds the
number of iterations. -/
def dump_image_loop (height row_size : Int) : Nat → Int → Int → List Int → List Int
  | 0, _, _, pointers => pointers
  | fuel + 1, i, p, pointers =>
    if i < height then
      dump_image_loop height row_size fuel (i + 1) (p + row_size) (pointers ++ [p])
    else pointers

/-- Member `SplashBackgroundRenderer::dump_image`.  The result is the state
reached and the way the call ended, `none` for a return.  The `assert` is in
force only without `NDEBUG`. -/
def dump_image (env : Env) (param : Param) (w : World) (filename : String)
    (x1 y1 x2 y2 : Int) : World × Option Thrown :=
  let width := int_add (int_sub x2 x1) 1
  let height := int_add (int_sub y2 y1) 1
  if width ≤ 0 ∨ height ≤ 0 then
    (w, some (Thrown.cstr "Bad metric for background image"))
  else
    let w := { w with io := w.io ++ [IoCall.fopen_wb filename] }
    if !env.fopen_wb_ok filename then
      (w, some (Thrown.str ("Cannot open file for background image " ++ filename)))
    else
      let w := { w with io := w.io ++ [IoCall.png_init width height param.h_dpi param.v_dpi] }
      if !env.png_init_ok width height param.h_dpi param.v_dpi then
        (w, some (Thrown.cstr "Cannot initialize PNGWriter"))
      else if env.NDEBUG = false ∧ w.dev.bitmap.mode ≠ SplashColorMode.splashModeRGB8 then
        (w, some (Thrown.abort "bitmap->getMode() == splashModeRGB8"))
      else
        let row_size := w.dev.bitmap.rowSize
        let pointers :=
          dump_image_loop height row_size height.toNat 0
            (int_mul y1 row_size + int_mul x1 3) []
        let w := { w with io := w.io ++ [IoCall.png_writePointers pointers height] }
        if !env.png_write_ok pointers height then
          (w, some (Thrown.cstr "Cannot write background image"))
        else
          ({ w with io := w.io ++ [IoCall.png_delete, IoCall.fclose filename] }, none)

/-! ## `embed_image` -/

/-- The local `h_scale` of `embed_image`. -/
def h_scale (env : Env) (param : Param) : Double :=
  double_div (double_mul (some env.text_zoom_factor) (some env.DEFAULT_DPI)) param.h_dpi

/-- The local `v_scale` of `embed_image`. -/
def v_scale (env : Env) (param : Param) : Double :=
  double_div (double_mul (some env.text_zoom_factor) (some env.DEFAULT_DPI)) param.v_dpi

/-- The argument of `all_manager.left.install`. -/
def img_left (env : Env) (param : Param) (xmin : Int) : Double :=
  double_mul (double_of_int xmin) (h_scale env param)

/-- The argument of `all_manager.bottom.install`. -/
def img_bottom (env : Env) (param : Param) (w : World) (ymax : Int) : Double :=
  double_mul
    (double_sub (double_sub (double_of_int w.dev.bitmap.height) (double_of_int 1))
      (double_of_int ymax))
    (v_scale env param)

/-- The argument of `all_manager.width.install`. -/
def img_width (env : Env) (param : Param) (xmin xmax : Int) : Double :=
  double_mul (double_of_int (int_add (int_sub xmax xmin) 1)) (h_scale env param)

/-- The argument of `all_manager.height.install`. -/
def img_height (env : Env) (param : Param) (ymin ymax : Int) : Double :=
  double_mul (double_of_int (int_add (int_sub ymax ymin) 1)) (v_scale env param)

/-- The text `embed_image` sends to the page stream before it looks at
`param.embed_image` a second time: the opening of the `img` element with the
four installed lengths, up to the opening quote of `src`. -/
def img_open (env : Env) (param : Param) (w : World) (xmin ymin xmax ymax : Int) : String :=
  let all_manager := w.html.all_manager
  "<img class=\"" ++ env.BACKGROUND_IMAGE_CN
    ++ " " ++ env.LEFT_CN ++ env.install_text all_manager.left (img_left env param xmin)
    ++ " " ++ env.BOTTOM_CN
    ++ env.install_text all_manager.bottom (img_bottom env param w ymax)
    ++ " " ++ env.WIDTH_CN
    ++ env.install_text all_manager.width (img_width env param xmin xmax)
    ++ " " ++ env.HEIGHT_CN
    ++ env.install_text all_manager.height (img_height env param ymin ymax)
    ++ "\" alt=\"\" src=\""

/-- The state of `all_manager` after the four calls of `install` made by
`embed_image`. -/
def img_install (env : Env) (param : Param) (w : World) (xmin ymin xmax ymax : Int) :
    AllManager :=
  let all_manager := w.html.all_manager
  { left := all_manager.left ++ [img_left env param xmin]
    bottom := all_manager.bottom ++ [img_bottom env param w ymax]
    width := all_manager.width ++ [img_width env param xmin xmax]
    height := all_manager.height ++ [img_height env param ymin ymax] }

/-- The local `fn` of `embed_image`: the name of the image file. -/
def embed_image_fn (param : Param) (pageno : Int) : String :=
  str_fmt "%s/bg%x.png"
    [FmtArg.s (if param.embed_image then param.tmp_dir else param.dest_dir), FmtArg.x pageno]

/-- The state in which `embed_image` calls `dump_image`: the statement
`if(param.embed_image) html_renderer->tmp_files.add((char*)fn);` has run. -/
def embed_image_registered (param : Param) (w : World) (pageno : Int) : World :=
  if param.embed_image then
    { w with html := w.html.tmp_files_add (embed_image_fn param pageno) }
  else w

/-- Member `SplashBackgroundRenderer::embed_image`.  The result is the state
reached and the value thrown, if any. -/
def embed_image (env : Env) (param : Param) (w : World) (pageno : Int) :
    World × Option Thrown :=
  let xmin := w.dev.modXMin
  let ymin := w.dev.modYMin
  let xmax := w.dev.modXMax
  let ymax := w.dev.modYMax
  if xmin ≤ xmax ∧ ymin ≤ ymax then
    let fn := embed_image_fn param pageno
    let w := embed_image_registered param w pageno
    match dump_image env param w fn xmin ymin xmax ymax with
    | (w, some e) => (w, some e)
    | (w, none) =>
      let w := { w with html := { w.html with
        f_curpage := w.html.f_curpage ++ img_open env param w xmin ymin xmax ymax
        all_manager := img_install env param w xmin ymin xmax ymax } }
      if param.embed_image then
        let path := str_fmt "%s/bg%x.png" [FmtArg.s param.tmp_dir, FmtArg.x pageno]
        let w := { w with io := w.io ++ [IoCall.ifstream_open path] }
        if !env.ifstream_ok path then
          (w, some (Thrown.str ("Cannot read background image " ++ path)))
        else
          ({ w with html := { w.html with
              f_curpage := w.html.f_curpage ++ "data:image/png;base64," ++ env.base64 path
                ++ "\"/>" } }, none)
      else
        ({ w with html := { w.html with
            f_curpage := w.html.f_curpage ++ str_fmt "bg%x.png" [FmtArg.x pageno]
              ++ "\"/>" } }, none)
  else (w, none)

/-! ## Sample inputs -/

/-- An RGB bitmap of 200 by 100 pixels with the region of the example in the
specification, `xmin = 10`, `xmax = 20`, `ymin = 5`, `ymax = 15`. -/
def sampleDev : SplashOutputDev :=
  { bitmap := { mode := SplashColorMode.splashModeRGB8, width := 200, height := 100,
                rowSize := 600 }
    modXMin := 10, modYMin := 5, modXMax := 20, modYMax := 15, ops := []
    inBitmap := by decide }

/-- The same page on a bitmap in the byte order blue, green, red. -/
def sampleDevBGR : SplashOutputDev :=
  { bitmap := { mode := SplashColorMode.splashModeBGR8, width := 200, height := 100,
                rowSize := 600 }
    modXMin := 10, modYMin := 5, modXMax := 20, modYMax := 15, ops := []
    inBitmap := by decide }

/-- An RGB bitmap of 100000 by 10000 pixels, 300000 bytes per scanline, whose
modified region is the pixels of column 0 on the scanlines 8000 and 8001. -/
def largeDev : SplashOutputDev :=
  { bitmap := { mode := SplashColorMode.splashModeRGB8, width := 100000, height := 10000,
                rowSize := 300000 }
    modXMin := 0, modYMin := 8000, modXMax := 0, modYMax := 8001, ops := []
    inBitmap := by decide }

/-- A renderer that has written nothing yet. -/
def sampleHtml : HTMLRenderer :=
  { f_curpage := "", tmp_files := [],
    all_manager := { left := [], bottom := [], width := [], height := [] } }

/-- The state at the end of a page whose region is the one of `sampleDev`. -/
def sampleWorld : World := { dev := sampleDev, html := sampleHtml, io := [] }

/-- The state at the end of the page of `sampleDevBGR`. -/
def sampleWorldBGR : World := { dev := sampleDevBGR, html := sampleHtml, io := [] }

/-- The state at the end of the page of `largeDev`. -/
def largeWorld : World := { dev := largeDev, html := sampleHtml, io := [] }

/-- Linked images at 96 dpi. -/
def sampleParam : Param :=
  { fallback := false, embed_image := false, tmp_dir := "/tmp", dest_dir := "out",
    h_dpi := 96, v_dpi := 96, use_cropbox := true }

/-- Inlined images at 96 dpi. -/
def sampleParamInline : Param := { sampleParam with embed_image := true }

/-- Linked images at 300 dpi. -/
def sampleParam300 : Param := { sampleParam with h_dpi := 300, v_dpi := 300 }

/-- Surroundings with assertions compiled in, zoom 1 and `DEFAULT_DPI = 96`,
in which every external call succeeds, except those switched off by the
arguments. -/
def sampleEnv (fopen_ok init_ok write_ok read_ok : Bool) : Env :=
  { NDEBUG := false, text_zoom_factor := 1, DEFAULT_DPI := 96,
    BACKGROUND_IMAGE_CN := "bi", LEFT_CN := "x", BOTTOM_CN := "y", WIDTH_CN := "w",
    HEIGHT_CN := "h",
    install_text := fun held _ => String.mk (toHexAux 8 held.length []),
    fopen_wb_ok := fun _ => fopen_ok,
    png_init_ok := fun _ _ _ _ => init_ok,
    png_write_ok := fun _ _ => write_ok,
    ifstream_ok := fun _ => read_ok,
    base64 := fun _ => "AAAA" }

/-- The surroundings `sampleEnv` with every call succeeding and
`DEFAULT_DPI = 72`. -/
def sampleEnv72 : Env := { sampleEnv true true true true with DEFAULT_DPI := 72 }

/-- The surroundings `sampleEnv` with every call succeeding, compiled with
`NDEBUG`. -/
def sampleEnvNDEBUG : Env := { sampleEnv true true true true with NDEBUG := true }

/-! ## Auxiliary facts -/

/-- An integer that fits an `int` is its own 32-bit value. -/
theorem wrap32_of_fits (n : Int) (h1 : -2147483648 ≤ n) (h2 : n < 2147483648) :
    wrap32 n = n := by
  unfold wrap32
  omega

/-- The extent `b - a + 1` of a non-empty range, computed in `int`, is exact
when it fits an `int`. -/
theorem int_extent (a b : Int) (hab : a ≤ b) (h : b - a + 1 < 2147483648) :
    int_add (int_sub b a) 1 = b - a + 1 := by
  unfold int_add int_sub
  rw [wrap32_of_fits (b - a) (by omega) (by omega), wrap32_of_fits (b - a + 1) (by omega) h]

/-- The extent of a range that is empty, computed in `int`, is not positive
when the difference fits an `int`. -/
theorem int_extent_nonpos (a b : Int) (hab : b - a + 1 ≤ 0) (h : -2147483648 ≤ b - a) :
    int_add (int_sub b a) 1 ≤ 0 := by
  unfold int_add int_sub
  rw [wrap32_of_fits (b - a) h (by omega), wrap32_of_fits (b - a + 1) (by omega) (by omega)]
  exact hab

/-- The extents of a non-empty modified region are exact in `int`, because the
region lies inside the bitmap. -/
theorem region_extent (dev : SplashOutputDev)
    (hbox : dev.modXMin ≤ dev.modXMax ∧ dev.modYMin ≤ dev.modYMax) :
    int_add (int_sub dev.modXMax dev.modXMin) 1 = dev.modXMax - dev.modXMin + 1
      ∧ int_add (int_sub dev.modYMax dev.modYMin) 1 = dev.modYMax - dev.modYMin + 1 := by
  have h := dev.inBitmap
  exact ⟨int_extent _ _ hbox.1 (by omega), int_extent _ _ hbox.2 (by omega)⟩

/-- A non-empty modified region passes the test of `dump_image` on the
extents. -/
theorem region_accepted (dev : SplashOutputDev)
    (hbox : dev.modXMin ≤ dev.modXMax ∧ dev.modYMin ≤ dev.modYMax) :
    ¬ (int_add (int_sub dev.modXMax dev.modXMin) 1 ≤ 0
      ∨ int_add (int_sub dev.modYMax dev.modYMin) 1 ≤ 0) := by
  rw [(region_extent dev hbox).1, (region_extent dev hbox).2]
  omega

/-- Rounding to the nearest integer: an integer less than one half away is the
result. -/
theorem roundEven_of_abs_sub_lt (y : ℚ) (m : Int) (h : |y - m| < 1 / 2) : roundEven y = m := by
  rw [abs_lt] at h
  obtain ⟨h1, h2⟩ := h
  unfold roundEven
  by_cases hm : (m : ℚ) ≤ y
  · have hf : ⌊y⌋ = m := by
      rw [Int.floor_eq_iff]
      exact ⟨hm, by linarith⟩
    rw [hf, if_pos (by linarith)]
  · push_neg at hm
    have hf : ⌊y⌋ = m - 1 := by
      rw [Int.floor_eq_iff]
      push_cast
      exact ⟨by linarith, by linarith⟩
    rw [hf]
    push_cast
    rw [if_neg (by linarith), if_pos (by linarith)]
    ring

/-- The exponent of the last place at `x`, from the binade of `x`. -/
theorem doubleExp_eq (x : ℚ) (e : Int) (h1 : (2 : ℚ) ^ (e + 52) ≤ |x|)
    (h2 : |x| < (2 : ℚ) ^ (e + 53)) (he : -1074 ≤ e) : doubleExp x = e := by
  have hpos : (0 : ℚ) < |x| := lt_of_lt_of_le (by positivity) h1
  have hl1 : e + 52 ≤ Int.log 2 |x| := by
    rw [← Int.zpow_le_iff_le_log (by norm_num) hpos]
    exact_mod_cast h1
  have hl2 : Int.log 2 |x| < e + 53 := by
    rw [← Int.lt_zpow_iff_log_lt (by norm_num) hpos]
    exact_mod_cast h2
  unfold doubleExp
  omega

/-- Rounding half way between an even integer and the next gives the even
one. -/
theorem roundEven_tie (m : Int) (hm : m % 2 = 0) : roundEven ((m : ℚ) + 1 / 2) = m := by
  have hf : ⌊(m : ℚ) + 1 / 2⌋ = m := by
    rw [Int.floor_eq_iff]
    constructor <;> linarith
  unfold roundEven
  rw [hf, if_neg (by norm_num), if_neg (by norm_num), if_pos hm]

/-- Rounding to a double, computed from the binade of `x` and the rounding of
`x / 2 ^ e` to an integer. -/
theorem roundDouble_of_roundEven (x : ℚ) (e m : Int) (h1 : (2 : ℚ) ^ (e + 52) ≤ |x|)
    (h2 : |x| < (2 : ℚ) ^ (e + 53)) (he : -1074 ≤ e) (hm : roundEven (x / 2 ^ e) = m)
    (hfin : |(m : ℚ) * 2 ^ e| < 2 ^ (1024 : ℤ)) :
    roundDouble x = some ((m : ℚ) * 2 ^ e) := by
  have hpos : (0 : ℚ) < |x| := lt_of_lt_of_le (by positivity) h1
  have hx : x ≠ 0 := abs_pos.mp hpos
  unfold roundDouble
  rw [if_neg hx, doubleExp_eq x e h1 h2 he, hm, if_pos hfin]

/-- Rounding to a double, computed from the binade of `x` and the integer
nearest to `x / 2 ^ e`. -/
theorem roundDouble_eq (x : ℚ) (e m : Int) (h1 : (2 : ℚ) ^ (e + 52) ≤ |x|)
    (h2 : |x| < (2 : ℚ) ^ (e + 53)) (he : -1074 ≤ e) (hm : |x / 2 ^ e - m| < 1 / 2)
    (hfin : |(m : ℚ) * 2 ^ e| < 2 ^ (1024 : ℤ)) :
    roundDouble x = some ((m : ℚ) * 2 ^ e) :=
  roundDouble_of_roundEven x e m h1 h2 he (roundEven_of_abs_sub_lt _ m hm) hfin

/-- Every integer below `2 ^ 53` in magnitude is a double. -/
theorem isDouble_int (n : Int) (h : |n| < 2 ^ 53) : isDouble (n : ℚ) := by
  unfold isDouble
  by_cases hn : n = 0
  · subst hn
    simp [roundDouble]
  have hq : (0 : ℚ) < |(n : ℚ)| := abs_pos.mpr (by exact_mod_cast hn)
  have hlo := Int.zpow_log_le_self (b := 2) (by norm_num) hq
  have hhi := Int.lt_zpow_succ_log_self (b := 2) (by norm_num) |(n : ℚ)|
  have h0 : 0 ≤ Int.log 2 |(n : ℚ)| := by
    rw [← Int.zpow_le_iff_le_log (by norm_num) hq]
    have h1 : (1 : ℤ) ≤ |n| := Int.one_le_abs hn
    have h2 : (1 : ℚ) ≤ |(n : ℚ)| := by exact_mod_cast h1
    simpa using h2
  have h53 : Int.log 2 |(n : ℚ)| < 53 := by
    rw [← Int.lt_zpow_iff_log_lt (by norm_num) hq]
    have h1 : |(n : ℚ)| < 2 ^ 53 := by exact_mod_cast h
    exact_mod_cast h1
  obtain ⟨k, hk⟩ : ∃ k : ℕ, (k : ℤ) = 52 - Int.log 2 |(n : ℚ)| :=
    ⟨(52 - Int.log 2 |(n : ℚ)|).toNat, by omega⟩
  have he : Int.log 2 |(n : ℚ)| - 52 = -(k : ℤ) := by omega
  have hpow : ((2 : ℚ) ^ k) * 2 ^ (-(k : ℤ)) = 1 := by
    rw [zpow_neg, zpow_natCast]
    exact mul_inv_cancel₀ (by positivity)
  have hval : ((n * 2 ^ k : ℤ) : ℚ) * 2 ^ (-(k : ℤ)) = n := by
    push_cast
    rw [mul_assoc, hpow, mul_one]
  have key := roundDouble_eq (n : ℚ) (-(k : ℤ)) (n * 2 ^ k)
    (by rw [← he]; simpa using hlo)
    (by
      have h1 : Int.log 2 |(n : ℚ)| - 52 + 53 = Int.log 2 |(n : ℚ)| + 1 := by ring
      rw [← he, h1]
      simpa using hhi)
    (by omega)
    (by
      have h1 : (n : ℚ) / 2 ^ (-(k : ℤ)) = ((n * 2 ^ k : ℤ) : ℚ) := by
        rw [zpow_neg, zpow_natCast, div_inv_eq_mul]
        push_cast
        ring
      rw [h1]
      norm_num)
    (by
      rw [hval]
      have h1 : |(n : ℚ)| < 2 ^ 53 := by exact_mod_cast h
      calc |(n : ℚ)| < 2 ^ 53 := h1
        _ ≤ 2 ^ (1024 : ℤ) := by norm_num)
  rw [key, hval]

/-- The conversion of an `int` to a double is exact. -/
theorem double_of_int_eq (n : Int) (h1 : -2147483648 ≤ n) (h2 : n < 2147483648) :
    double_of_int n = some (n : ℚ) := by
  apply isDouble_int
  rw [abs_lt]
  constructor <;> omega


/-- Frame of `dump_image`: it changes neither the HTML renderer nor the device. -/
theorem dump_image_frame (env : Env) (param : Param) (w : World) (filename : String)
    (x1 y1 x2 y2 : Int) :
    (dump_image env param w filename x1 y1 x2 y2).1.html = w.html
      ∧ (dump_image env param w filename x1 y1 x2 y2).1.dev = w.dev := by
  unfold dump_image
  simp only []
  split_ifs <;> simp

/-- Registering the file name changes neither the device, nor the page stream,
nor the recorded calls. -/
theorem embed_image_registered_frame (param : Param) (w : World) (pageno : Int) :
    (embed_image_registered param w pageno).dev = w.dev
      ∧ (embed_image_registered param w pageno).io = w.io
      ∧ (embed_image_registered param w pageno).html.f_curpage = w.html.f_curpage
      ∧ (embed_image_registered param w pageno).html.all_manager = w.html.all_manager := by
  unfold embed_image_registered
  split_ifs <;> simp [HTMLRenderer.tmp_files_add]

/-- When the call of `dump_image` made by `embed_image` throws, `embed_image`
ends there. -/
theorem embed_image_of_dump_throws (env : Env) (param : Param) (w : World) (pageno : Int)
    (e : Thrown)
    (hbox : w.dev.modXMin ≤ w.dev.modXMax ∧ w.dev.modYMin ≤ w.dev.modYMax)
    (hfail : (dump_image env param (embed_image_registered param w pageno)
      (embed_image_fn param pageno)
      w.dev.modXMin w.dev.modYMin w.dev.modXMax w.dev.modYMax).2 = some e) :
    embed_image env param w pageno
      = ((dump_image env param (embed_image_registered param w pageno)
          (embed_image_fn param pageno)
          w.dev.modXMin w.dev.modYMin w.dev.modXMax w.dev.modYMax).1, some e) := by
  unfold embed_image
  simp only [hbox, and_self, if_true]
  generalize dump_image env param (embed_image_registered param w pageno)
      (embed_image_fn param pageno)
      w.dev.modXMin w.dev.modYMin w.dev.modXMax w.dev.modYMax = r at hfail ⊢
  obtain ⟨w1, o⟩ := r
  simp only at hfail
  subst hfail
  rfl

/-- With enough fuel the loop of `dump_image` runs until `i = height`: from
`(i, p, pointers)` it pushes `p`, `p + row_size`, `p + 2 * row_size`, ... once
for every remaining `i`, and more fuel changes nothing. -/
theorem dump_image_loop_eq (height row_size : Int) :
    ∀ (fuel : Nat) (i p : Int) (pointers : List Int), (height - i).toNat ≤ fuel →
      dump_image_loop height row_size fuel i p pointers
        = pointers
          ++ (List.range (height - i).toNat).map (fun k : Nat => p + (k : Int) * row_size) := by
  intro fuel
  induction fuel with
  | zero =>
    intro i p pointers h
    have h0 : (height - i).toNat = 0 := by omega
    simp [dump_image_loop, h0]
  | succ fuel ih =>
    intro i p pointers h
    unfold dump_image_loop
    by_cases hi : i < height
    · have hs : (height - i).toNat = (height - (i + 1)).toNat + 1 := by omega
      rw [if_pos hi, ih (i + 1) (p + row_size) (pointers ++ [p]) (by omega), hs,
        List.range_succ_eq_map]
      simp only [List.map_cons, List.map_map, List.append_assoc, List.singleton_append,
        Nat.cast_zero, zero_mul, add_zero]
      congr 2
      apply List.map_congr_left
      intro k _
      simp only [Function.comp, Nat.cast_succ]
      ring
    · have h0 : (height - i).toNat = 0 := by omega
      rw [if_neg hi, h0]
      simp

/-- The row addresses `dump_image` computes for a box of `height` scanlines. -/
theorem dump_image_pointers (height row_size p : Int) :
    dump_image_loop height row_size height.toNat 0 p []
      = (List.range height.toNat).map (fun k : Nat => p + (k : Int) * row_size) := by
  have h := dump_image_loop_eq height row_size height.toNat 0 p [] (by simp)
  simpa using h

/-- The calls `dump_image` makes once the box is accepted, the file is open,
the writer is initialised and the `assert` is passed or compiled out. -/
theorem dump_image_reaches_write (env : Env) (param : Param) (w : World) (filename : String)
    (x1 y1 x2 y2 : Int)
    (hbox : ¬ (int_add (int_sub x2 x1) 1 ≤ 0 ∨ int_add (int_sub y2 y1) 1 ≤ 0))
    (hopen : env.fopen_wb_ok filename = true)
    (hinit : env.png_init_ok (int_add (int_sub x2 x1) 1) (int_add (int_sub y2 y1) 1)
      param.h_dpi param.v_dpi = true)
    (hmode : env.NDEBUG = true ∨ w.dev.bitmap.mode = SplashColorMode.splashModeRGB8) :
    ∃ tail : List IoCall,
      (dump_image env param w filename x1 y1 x2 y2).1.io
        = w.io
          ++ [IoCall.fopen_wb filename,
              IoCall.png_init (int_add (int_sub x2 x1) 1) (int_add (int_sub y2 y1) 1)
                param.h_dpi param.v_dpi,
              IoCall.png_writePointers
                ((List.range (int_add (int_sub y2 y1) 1).toNat).map
                  (fun k : Nat => int_mul y1 w.dev.bitmap.rowSize + int_mul x1 3
                    + (k : Int) * w.dev.bitmap.rowSize))
                (int_add (int_sub y2 y1) 1)]
          ++ tail := by
  have hassert : ¬ (env.NDEBUG = false
      ∧ w.dev.bitmap.mode ≠ SplashColorMode.splashModeRGB8) := by
    rintro ⟨h1, h2⟩
    rcases hmode with h | h
    · rw [h] at h1
      exact Bool.noConfusion h1
    · exact h2 h
  unfold dump_image
  simp only [hbox, if_false, hopen, hinit, hassert, Bool.not_true, dump_image_pointers,
    Bool.false_eq_true]
  split_ifs
  · exact ⟨[], by simp⟩
  · exact ⟨[IoCall.png_delete, IoCall.fclose filename], by simp⟩

/-- What `embed_image` does after a normal return of `dump_image`. -/
theorem embed_image_of_dump_returns (env : Env) (param : Param) (w : World) (pageno : Int)
    (hbox : w.dev.modXMin ≤ w.dev.modXMax ∧ w.dev.modYMin ≤ w.dev.modYMax)
    (hok : (dump_image env param (embed_image_registered param w pageno)
      (embed_image_fn param pageno)
      w.dev.modXMin w.dev.modYMin w.dev.modXMax w.dev.modYMax).2 = none) :
    embed_image env param w pageno
      = (let w1 := (dump_image env param (embed_image_registered param w pageno)
            (embed_image_fn param pageno)
            w.dev.modXMin w.dev.modYMin w.dev.modXMax w.dev.modYMax).1
         let w2 : World := { w1 with html := { w1.html with
            f_curpage := w1.html.f_curpage
              ++ img_open env param w1 w.dev.modXMin w.dev.modYMin w.dev.modXMax w.dev.modYMax
            all_manager :=
              img_install env param w1 w.dev.modXMin w.dev.modYMin w.dev.modXMax
                w.dev.modYMax } }
         if param.embed_image then
           let path := str_fmt "%s/bg%x.png" [FmtArg.s param.tmp_dir, FmtArg.x pageno]
           let w3 : World := { w2 with io := w2.io ++ [IoCall.ifstream_open path] }
           if !env.ifstream_ok path then
             (w3, some (Thrown.str ("Cannot read background image " ++ path)))
           else
             ({ w3 with html := { w3.html with
                 f_curpage := w3.html.f_curpage ++ "data:image/png;base64,"
                   ++ env.base64 path ++ "\"/>" } }, none)
         else
           ({ w2 with html := { w2.html with
               f_curpage := w2.html.f_curpage ++ str_fmt "bg%x.png" [FmtArg.x pageno]
                 ++ "\"/>" } }, none)) := by
  unfold embed_image
  simp only [hbox, and_self, if_true]
  generalize dump_image env param (embed_image_registered param w pageno)
      (embed_image_fn param pageno)
      w.dev.modXMin w.dev.modYMin w.dev.modXMax w.dev.modYMax = r at hok ⊢
  obtain ⟨w1, o⟩ := r
  simp only at hok
  subst hok
  rfl

/-- The opening of the `img` element and the installed lengths depend on the
state only through the length managers and the bitmap height. -/
theorem img_frame (env : Env) (param : Param) (v w : World) (xmin ymin xmax ymax : Int)
    (hm : v.html.all_manager = w.html.all_manager) (hd : v.dev = w.dev) :
    img_open env param v xmin ymin xmax ymax = img_open env param w xmin ymin xmax ymax
      ∧ img_install env param v xmin ymin xmax ymax
        = img_install env param w xmin ymin xmax ymax := by
  unfold img_open img_install img_bottom
  simp only [hm, hd, and_self]

/-- The state in which `embed_image` has called `dump_image` agrees with the
state before `embed_image` on the device, the page stream and the length
managers. -/
theorem embed_image_dump_frame (env : Env) (param : Param) (w : World) (pageno : Int)
    (x1 y1 x2 y2 : Int) :
    (dump_image env param (embed_image_registered param w pageno)
        (embed_image_fn param pageno) x1 y1 x2 y2).1.dev = w.dev
      ∧ (dump_image env param (embed_image_registered param w pageno)
        (embed_image_fn param pageno) x1 y1 x2 y2).1.html.f_curpage = w.html.f_curpage
      ∧ (dump_image env param (embed_image_registered param w pageno)
        (embed_image_fn param pageno) x1 y1 x2 y2).1.html.all_manager
          = w.html.all_manager
      ∧ (dump_image env param (embed_image_registered param w pageno)
        (embed_image_fn param pageno) x1 y1 x2 y2).1.html.tmp_files
          = (embed_image_registered param w pageno).html.tmp_files := by
  have hf := dump_image_frame env param (embed_image_registered param w pageno)
    (embed_image_fn param pageno) x1 y1 x2 y2
  have hr := embed_image_registered_frame param w pageno
  rw [hf.1, hf.2]
  exact ⟨hr.1, hr.2.2.1, hr.2.2.2, rfl⟩

/-- The format `"%s/bg%x.png"` expands to the directory, `/bg`, the `%x`
conversion of the page number and `.png`. -/
theorem str_fmt_dir_bg (dir : String) (pageno : Int) :
    str_fmt "%s/bg%x.png" [FmtArg.s dir, FmtArg.x pageno]
      = dir ++ "/bg" ++ String.mk (printf_x pageno) ++ ".png" := by
  apply String.ext
  simp [str_fmt, fmtGo, String.data_append]

/-- The format `"bg%x.png"` expands to `bg`, the `%x` conversion of the page
number and `.png`. -/
theorem str_fmt_bg (pageno : Int) :
    str_fmt "bg%x.png" [FmtArg.x pageno] = "bg" ++ String.mk (printf_x pageno) ++ ".png" := by
  apply String.ext
  simp [str_fmt, fmtGo, String.data_append]

/-- Reading back a digit `printf` prints gives its value. -/
theorem hexDigitValue_hexChar : ∀ d : Nat, d < 16 → hexDigitValue (hexChar d) = some d := by
  decide

/-- Only the value zero prints as the digit `0`. -/
theorem hexChar_ne_zero : ∀ d : Nat, d < 16 → 0 < d → hexChar d ≠ '0' := by
  decide

/-- The accumulator of `toHexAux` ends up behind the digits it produces. -/
theorem toHexAux_append (fuel : Nat) :
    ∀ (n : Nat) (acc : List Char), toHexAux fuel n acc = toHexAux fuel n [] ++ acc := by
  induction fuel with
  | zero => intro n acc; simp [toHexAux]
  | succ fuel ih =>
    intro n acc
    simp only [toHexAux]
    split_ifs
    · simp
    · rw [ih (n / 16) (hexChar (n % 16) :: acc), ih (n / 16) [hexChar (n % 16)]]
      simp

/-- Reading a digit string extended by one digit. -/
theorem hexValue_append_singleton (l : List Char) (c : Char) :
    hexValue (l ++ [c])
      = match hexValue l, hexDigitValue c with
        | some a, some d => some (16 * a + d)
        | _, _ => none := by
  simp [hexValue, List.foldl_append]

/-- With `fuel` digits available, a positive number below `16 ^ fuel` is
printed in full: the digits read back as the number, and the first is not
`0`. -/
theorem toHexAux_spec (fuel : Nat) :
    ∀ n : Nat, 0 < n → n < 16 ^ fuel →
      hexValue (toHexAux fuel n []) = some n
        ∧ (toHexAux fuel n []).head? ≠ some '0' := by
  induction fuel with
  | zero => intro n h0 h; simp at h; omega
  | succ fuel ih =>
    intro n h0 h
    simp only [toHexAux]
    by_cases hn : n < 16
    · rw [if_pos hn]
      constructor
      · simp [hexValue, hexDigitValue_hexChar n hn]
      · simpa using hexChar_ne_zero n hn h0
    · rw [if_neg hn, toHexAux_append]
      have hq0 : 0 < n / 16 := Nat.div_pos (by omega) (by decide)
      have hq : n / 16 < 16 ^ fuel := by
        apply Nat.div_lt_of_lt_mul
        rw [pow_succ] at h
        omega
      obtain ⟨hv, hh⟩ := ih (n / 16) hq0 hq
      have hne : toHexAux fuel (n / 16) [] ≠ [] := by
        intro he
        rw [he] at hv
        simp [hexValue] at hv
        omega
      constructor
      · rw [hexValue_append_singleton, hv, hexDigitValue_hexChar (n % 16) (Nat.mod_lt n (by decide))]
        simp only [Option.some.injEq]
        omega
      · rw [List.head?_append_of_ne_nil _ hne]
        exact hh

/-- For a page number from 1 to `INT_MAX` the `%x` conversion prints the
lowercase hexadecimal digits of the number without a leading `0`. -/
theorem printf_x_spec (pageno : Int) (h1 : 1 ≤ pageno) (h2 : pageno < 2 ^ 31) :
    hexValue (printf_x pageno) = some pageno.toNat
      ∧ (printf_x pageno).head? ≠ some '0' := by
  have hm : (pageno % 2 ^ 32).toNat = pageno.toNat := by
    rw [Int.emod_eq_of_lt (by omega) (by omega)]
  unfold printf_x
  rw [hm]
  exact toHexAux_spec 8 pageno.toNat (by omega) (by norm_num; omega)

/-- For a box with positive extents the first call `dump_image` records is the
`fopen` of its file name. -/
theorem dump_image_io_prefix (env : Env) (param : Param) (w : World) (filename : String)
    (x1 y1 x2 y2 : Int)
    (hbox : ¬ (int_add (int_sub x2 x1) 1 ≤ 0 ∨ int_add (int_sub y2 y1) 1 ≤ 0)) :
    ∃ tail : List IoCall,
      (dump_image env param w filename x1 y1 x2 y2).1.io
        = w.io ++ IoCall.fopen_wb filename :: tail := by
  unfold dump_image
  simp only [hbox, if_false]
  split_ifs
  · exact ⟨[], by simp⟩
  · exact ⟨_, by simp; rfl⟩
  · exact ⟨_, by simp; rfl⟩
  · exact ⟨_, by simp; rfl⟩
  · exact ⟨_, by simp; rfl⟩

/-- The name `embed_image` gives the image file, spelled out. -/
theorem embed_image_fn_eq (param : Param) (pageno : Int) :
    embed_image_fn param pageno
      = (if param.embed_image then param.tmp_dir else param.dest_dir)
        ++ "/bg" ++ String.mk (printf_x pageno) ++ ".png" := by
  unfold embed_image_fn
  exact str_fmt_dir_bg _ _

/-- For a non-empty box the first call `embed_image` records is the `fopen` of
the image file. -/
theorem embed_image_io_prefix (env : Env) (param : Param) (w : World) (pageno : Int)
    (hbox : w.dev.modXMin ≤ w.dev.modXMax ∧ w.dev.modYMin ≤ w.dev.modYMax) :
    ∃ tail : List IoCall,
      (embed_image env param w pageno).1.io
        = w.io ++ IoCall.fopen_wb (embed_image_fn param pageno) :: tail := by
  have hext := region_accepted w.dev hbox
  obtain ⟨tail, ht⟩ := dump_image_io_prefix env param (embed_image_registered param w pageno)
    (embed_image_fn param pageno) w.dev.modXMin w.dev.modYMin w.dev.modXMax w.dev.modYMax
    hext
  rw [(embed_image_registered_frame param w pageno).2.1] at ht
  cases hd : (dump_image env param (embed_image_registered param w pageno)
      (embed_image_fn param pageno)
      w.dev.modXMin w.dev.modYMin w.dev.modXMax w.dev.modYMax).2 with
  | some e =>
    rw [embed_image_of_dump_throws env param w pageno e hbox hd]
    exact ⟨tail, ht⟩
  | none =>
    rw [embed_image_of_dump_returns env param w pageno hbox hd]
    simp only []
    split_ifs
    · exact ⟨tail ++ [IoCall.ifstream_open
        (str_fmt "%s/bg%x.png" [FmtArg.s param.tmp_dir, FmtArg.x pageno])], by simp [ht]⟩
    · exact ⟨tail ++ [IoCall.ifstream_open
        (str_fmt "%s/bg%x.png" [FmtArg.s param.tmp_dir, FmtArg.x pageno])], by simp [ht]⟩
    · exact ⟨tail, ht⟩

/-- For a non-empty box the registry after `embed_image` is the one in which
`dump_image` was called. -/
theorem embed_image_tmp_files (env : Env) (param : Param) (w : World) (pageno : Int)
    (hbox : w.dev.modXMin ≤ w.dev.modXMax ∧ w.dev.modYMin ≤ w.dev.modYMax) :
    (embed_image env param w pageno).1.html.tmp_files
      = (embed_image_registered param w pageno).html.tmp_files := by
  have hf := (embed_image_dump_frame env param w pageno
    w.dev.modXMin w.dev.modYMin w.dev.modXMax w.dev.modYMax).2.2.2
  cases hd : (dump_image env param (embed_image_registered param w pageno)
      (embed_image_fn param pageno)
      w.dev.modXMin w.dev.modYMin w.dev.modXMax w.dev.modYMax).2 with
  | some e =>
    rw [embed_image_of_dump_throws env param w pageno e hbox hd]
    exact hf
  | none =>
    rw [embed_image_of_dump_returns env param w pageno hbox hd]
    simp only []
    split_ifs <;> exact hf

/-- For a non-empty region, once `dump_image` has returned, the length
managers hold the four lengths of `img_install`. -/
theorem embed_image_all_manager (env : Env) (param : Param) (w : World) (pageno : Int)
    (hbox : w.dev.modXMin ≤ w.dev.modXMax ∧ w.dev.modYMin ≤ w.dev.modYMax)
    (hok : (dump_image env param (embed_image_registered param w pageno)
      (embed_image_fn param pageno)
      w.dev.modXMin w.dev.modYMin w.dev.modXMax w.dev.modYMax).2 = none) :
    (embed_image env param w pageno).1.html.all_manager
      = img_install env param w w.dev.modXMin w.dev.modYMin w.dev.modXMax w.dev.modYMax := by
  have hf := embed_image_dump_frame env param w pageno
    w.dev.modXMin w.dev.modYMin w.dev.modXMax w.dev.modYMax
  have hi := (img_frame env param _ w w.dev.modXMin w.dev.modYMin w.dev.modXMax w.dev.modYMax
    hf.2.2.1 hf.1).2
  rw [embed_image_of_dump_returns env param w pageno hbox hok]
  simp only []
  split_ifs <;> exact hi

/-- The double nearest to `72 / 300` is `0x1.eb851eb851eb8p-3`. -/
theorem roundDouble_72_300 :
    roundDouble (72 / 300) = some (1080863910568919 / 4503599627370496) := by
  have h := roundDouble_eq (72 / 300) (-55) 8646911284551352 (by norm_num [le_abs])
    (by norm_num [abs_lt]) (by norm_num) (by norm_num [abs_lt]) (by norm_num [abs_lt])
  rw [h]
  norm_num

/-- Eleven times `0x1.eb851eb851eb8p-3` lies half way between two doubles and
rounds to the even one, `0x1.51eb851eb851ep+1`. -/
theorem roundDouble_11_scale :
    roundDouble (11 * (1080863910568919 / 4503599627370496))
      = some (2972375754064527 / 1125899906842624) := by
  have hy : (11 * (1080863910568919 / 4503599627370496) : ℚ) / 2 ^ (-51 : ℤ)
      = ((5944751508129054 : Int) : ℚ) + 1 / 2 := by norm_num
  have h := roundDouble_of_roundEven (11 * (1080863910568919 / 4503599627370496)) (-51)
    5944751508129054 (by norm_num [le_abs]) (by norm_num [abs_lt]) (by norm_num)
    (by rw [hy]; exact roundEven_tie 5944751508129054 (by decide)) (by norm_num [abs_lt])
  rw [h]
  norm_num

/-! ## Properties -/

/-- C1: `drawChar` hands the glyph to the base class `drawChar` exactly when
fallback is enabled or a font is present whose writing mode is non-zero or
whose type is Type 3, and in every other case it leaves the device as it
was; so fallback gives the base call for any font and for no font, and
without fallback neither a missing font nor a font of writing mode 0 that is
not Type 3 draws anything. -/
theorem drawChar_base_iff (param : Param) (dev : SplashOutputDev) (state : GfxState)
    (args : CharArgs) :
    ((param.fallback = true
        ∨ ∃ font, state.font = some font
            ∧ (font.wMode ≠ 0 ∨ font.type = GfxFontType.fontType3))
      ↔ drawChar param dev state args = dev.drawChar state args)
    ∧ (¬ (param.fallback = true
        ∨ ∃ font, state.font = some font
            ∧ (font.wMode ≠ 0 ∨ font.type = GfxFontType.fontType3))
      ↔ drawChar param dev state args = dev)
    ∧ (param.fallback = true → drawChar param dev state args = dev.drawChar state args)
    ∧ (param.fallback = false → state.font = none → drawChar param dev state args = dev)
    ∧ (∀ font, param.fallback = false → state.font = some font → font.wMode = 0 →
        font.type ≠ GfxFontType.fontType3 → drawChar param dev state args = dev) := by
  have hne : dev.drawChar state args ≠ dev := by
    intro h
    have := congrArg (fun d => d.ops.length) h
    simp [SplashOutputDev.drawChar] at this
  have key : drawChar param dev state args
      = if (param.fallback = true
          ∨ ∃ font, state.font = some font
              ∧ (font.wMode ≠ 0 ∨ font.type = GfxFontType.fontType3))
        then dev.drawChar state args else dev := by
    unfold drawChar
    cases hf : param.fallback <;> cases hs : state.font <;> simp
  refine ⟨?_, ?_, ?_, ?_, ?_⟩
  · rw [key]; split_ifs with h
    · simp [h]
    · simp only [h, false_iff]; exact fun e => hne e.symm
  · rw [key]; split_ifs with h
    · simp only [h, not_true_eq_false, false_iff]; exact hne
    · simp [h]
  · intro h; rw [key]; simp [h]
  · intro h hs; rw [key]; simp [h, hs]
  · intro font h hs hw ht; rw [key]; simp [h, hs, hw, ht]

/-- C3: when the modified region is empty (`xmin > xmax` or `ymin > ymax`),
`embed_image` returns normally and changes nothing at all: no external call is
recorded, the page stream and the temp-file registry are as before; and the
state `startPage` leaves is such an empty region, so `embed_image` right after
`startPage` is this no-op. -/
theorem embed_image_empty_region (env : Env) (param : Param) (w : World) (pageno : Int) :
    ((w.dev.modXMax < w.dev.modXMin ∨ w.dev.modYMax < w.dev.modYMin) →
        embed_image env param w pageno = (w, none))
    ∧ (∀ pageNum : Int, (0 ≤ w.dev.bitmap.width ∨ 0 ≤ w.dev.bitmap.height) →
        embed_image env param { w with dev := startPage w.dev pageNum } pageno
          = ({ w with dev := startPage w.dev pageNum }, none)) := by
  have main : ∀ v : World, (v.dev.modXMax < v.dev.modXMin ∨ v.dev.modYMax < v.dev.modYMin) →
      embed_image env param v pageno = (v, none) := by
    intro v h
    unfold embed_image
    have : ¬ (v.dev.modXMin ≤ v.dev.modXMax ∧ v.dev.modYMin ≤ v.dev.modYMax) := by
      rintro ⟨h1, h2⟩
      rcases h with h | h <;> omega
    simp only [this, if_false]
  refine ⟨main w, ?_⟩
  intro pageNum h
  apply main
  simp only [startPage, SplashOutputDev.clearModRegion, SplashOutputDev.startPage]
  omega

/-- Instance of C3: the sample page right after `startPage`, with inline
embedding and every external call set to fail; nothing is called, written or
registered. -/
theorem embed_image_empty_region_witness :
    embed_image (sampleEnv false false false false) sampleParamInline
        { sampleWorld with dev := startPage sampleDev 7 } 7
      = ({ sampleWorld with dev := startPage sampleDev 7 }, none) :=
  (embed_image_empty_region (sampleEnv false false false false) sampleParamInline
    { sampleWorld with dev := startPage sampleDev 7 } 7).1 (by decide)

/-- C5: when the region is non-empty and the call of `dump_image` made by
`embed_image` throws, `embed_image` throws the same value and the page stream
is the one before the call; and whenever `embed_image` changes the page
stream, the region was non-empty and `dump_image` had returned normally. -/
theorem embed_image_dump_failure (env : Env) (param : Param) (w : World) (pageno : Int) :
    (∀ e : Thrown,
      (w.dev.modXMin ≤ w.dev.modXMax ∧ w.dev.modYMin ≤ w.dev.modYMax) →
      (dump_image env param (embed_image_registered param w pageno)
        (embed_image_fn param pageno)
        w.dev.modXMin w.dev.modYMin w.dev.modXMax w.dev.modYMax).2 = some e →
      (embed_image env param w pageno).2 = some e
        ∧ (embed_image env param w pageno).1.html.f_curpage = w.html.f_curpage)
    ∧ ((embed_image env param w pageno).1.html.f_curpage ≠ w.html.f_curpage →
      (w.dev.modXMin ≤ w.dev.modXMax ∧ w.dev.modYMin ≤ w.dev.modYMax)
        ∧ (dump_image env param (embed_image_registered param w pageno)
            (embed_image_fn param pageno)
            w.dev.modXMin w.dev.modYMin w.dev.modXMax w.dev.modYMax).2 = none) := by
  have first : ∀ e : Thrown,
      (w.dev.modXMin ≤ w.dev.modXMax ∧ w.dev.modYMin ≤ w.dev.modYMax) →
      (dump_image env param (embed_image_registered param w pageno)
        (embed_image_fn param pageno)
        w.dev.modXMin w.dev.modYMin w.dev.modXMax w.dev.modYMax).2 = some e →
      (embed_image env param w pageno).2 = some e
        ∧ (embed_image env param w pageno).1.html.f_curpage = w.html.f_curpage := by
    intro e hbox hfail
    rw [embed_image_of_dump_throws env param w pageno e hbox hfail]
    refine ⟨rfl, ?_⟩
    simp only [(dump_image_frame env param _ _ _ _ _ _).1]
    exact (embed_image_registered_frame param w pageno).2.2.1
  refine ⟨first, ?_⟩
  intro hchg
  by_cases hbox : w.dev.modXMin ≤ w.dev.modXMax ∧ w.dev.modYMin ≤ w.dev.modYMax
  · refine ⟨hbox, ?_⟩
    cases hd : (dump_image env param (embed_image_registered param w pageno)
        (embed_image_fn param pageno)
        w.dev.modXMin w.dev.modYMin w.dev.modXMax w.dev.modYMax).2 with
    | none => rfl
    | some e => exact absurd (first e hbox hd).2 hchg
  · exfalso
    apply hchg
    unfold embed_image
    simp only [hbox, if_false]

/-- Instance of C5: the destination cannot be opened for page 255; the value
thrown names `out/bgff.png` and the page stream stays empty. -/
theorem embed_image_dump_failure_witness :
    (embed_image (sampleEnv false true true true) sampleParam sampleWorld 255).2
        = some (Thrown.str "Cannot open file for background image out/bgff.png")
      ∧ (embed_image (sampleEnv false true true true) sampleParam sampleWorld 255).1.html.f_curpage
        = "" :=
  (embed_image_dump_failure (sampleEnv false true true true) sampleParam sampleWorld 255).1
    (Thrown.str "Cannot open file for background image out/bgff.png")
    (by decide) (by decide)

/-- C4 as stated fails: with inline embedding, page 255 of the sample page and
a temp file that cannot be reopened, `embed_image` throws
"Cannot read background image /tmp/bgff.png", yet the page stream, empty
before the call, holds the opening of the `img` element after it. -/
theorem embed_image_read_failure_stream_changed :
    (embed_image (sampleEnv true true true false) sampleParamInline sampleWorld 255).2
        = some (Thrown.str "Cannot read background image /tmp/bgff.png")
      ∧ (embed_image (sampleEnv true true true false) sampleParamInline sampleWorld 255).1.html.f_curpage
        = "<img class=\"bi x0 y0 w0 h0\" alt=\"\" src=\""
      ∧ (embed_image (sampleEnv true true true false) sampleParamInline sampleWorld 255).1.html.f_curpage
        ≠ sampleWorld.html.f_curpage := by
  decide

/-- C4, amended: for a non-empty box with inline embedding, when the image
has been written and the temp file cannot be opened for reading,
`embed_image` throws "Cannot read background image " followed by the path
`<tmp_dir>/bg<%x of the page number>.png`; the page stream is the stream
before the call followed by the opening of the `img` element, from
`<img class="` to the opening quote of `src`, and nothing after it: no data
URI and no closing of the element. -/
theorem embed_image_read_failure (env : Env) (param : Param) (w : World) (pageno : Int)
    (hbox : w.dev.modXMin ≤ w.dev.modXMax ∧ w.dev.modYMin ≤ w.dev.modYMax)
    (hinline : param.embed_image = true)
    (hok : (dump_image env param (embed_image_registered param w pageno)
      (embed_image_fn param pageno)
      w.dev.modXMin w.dev.modYMin w.dev.modXMax w.dev.modYMax).2 = none)
    (hread : env.ifstream_ok
      (param.tmp_dir ++ "/bg" ++ String.mk (printf_x pageno) ++ ".png") = false) :
    (embed_image env param w pageno).2
        = some (Thrown.str ("Cannot read background image "
            ++ (param.tmp_dir ++ "/bg" ++ String.mk (printf_x pageno) ++ ".png")))
      ∧ (embed_image env param w pageno).1.html.f_curpage
        = w.html.f_curpage
          ++ img_open env param w w.dev.modXMin w.dev.modYMin w.dev.modXMax w.dev.modYMax
      ∧ ∃ cls : String,
          img_open env param w w.dev.modXMin w.dev.modYMin w.dev.modXMax w.dev.modYMax
            = "<img class=\"" ++ cls ++ "\" alt=\"\" src=\"" := by
  have hf := embed_image_dump_frame env param w pageno
    w.dev.modXMin w.dev.modYMin w.dev.modXMax w.dev.modYMax
  have hi := (img_frame env param _ w w.dev.modXMin w.dev.modYMin w.dev.modXMax w.dev.modYMax
    hf.2.2.1 hf.1).1
  rw [embed_image_of_dump_returns env param w pageno hbox hok]
  simp only [hinline, if_true, str_fmt_dir_bg, hread, Bool.not_false, hi, hf.2.1, true_and]
  refine ⟨env.BACKGROUND_IMAGE_CN
    ++ " " ++ env.LEFT_CN
    ++ env.install_text w.html.all_manager.left (img_left env param w.dev.modXMin)
    ++ " " ++ env.BOTTOM_CN
    ++ env.install_text w.html.all_manager.bottom (img_bottom env param w w.dev.modYMax)
    ++ " " ++ env.WIDTH_CN
    ++ env.install_text w.html.all_manager.width
        (img_width env param w.dev.modXMin w.dev.modXMax)
    ++ " " ++ env.HEIGHT_CN
    ++ env.install_text w.html.all_manager.height
        (img_height env param w.dev.modYMin w.dev.modYMax), ?_⟩
  unfold img_open
  simp only [String.append_assoc]

/-- Instance of C4, amended: page 255 of the sample page, inline, with a temp
file that cannot be reopened. -/
theorem embed_image_read_failure_witness :
    (embed_image (sampleEnv true true true false) sampleParamInline sampleWorld 255).2
        = some (Thrown.str ("Cannot read background image "
            ++ (sampleParamInline.tmp_dir ++ "/bg" ++ String.mk (printf_x 255) ++ ".png")))
      ∧ (embed_image (sampleEnv true true true false) sampleParamInline sampleWorld
          255).1.html.f_curpage
        = sampleWorld.html.f_curpage
          ++ img_open (sampleEnv true true true false) sampleParamInline sampleWorld
              sampleWorld.dev.modXMin sampleWorld.dev.modYMin sampleWorld.dev.modXMax
              sampleWorld.dev.modYMax
      ∧ ∃ cls : String,
          img_open (sampleEnv true true true false) sampleParamInline sampleWorld
              sampleWorld.dev.modXMin sampleWorld.dev.modYMin sampleWorld.dev.modXMax
              sampleWorld.dev.modYMax
            = "<img class=\"" ++ cls ++ "\" alt=\"\" src=\"" :=
  embed_image_read_failure (sampleEnv true true true false) sampleParamInline sampleWorld 255
    (by decide) rfl (by decide) rfl

/-- C6: for a non-empty box and a page number `n` from 1 to `INT_MAX` there
is a digit string `h`, the lowercase hexadecimal digits of `n` without a
leading `0`, such that the file `embed_image` opens for writing is
`<dir>/bg<h>.png`, with `<dir>` the temp directory when inline embedding is
configured and the destination directory otherwise; in linked mode a call
that returns has written the `img` element whose `src` is exactly
`bg<h>.png`; in inline mode, once the image is written, the path reopened for
reading is the path that was opened for writing. -/
theorem embed_image_file_name (env : Env) (param : Param) (w : World) (pageno : Int)
    (hbox : w.dev.modXMin ≤ w.dev.modXMax ∧ w.dev.modYMin ≤ w.dev.modYMax)
    (h1 : 1 ≤ pageno) (h2 : pageno < 2 ^ 31) :
    ∃ h : List Char,
      hexValue h = some pageno.toNat
      ∧ h.head? ≠ some '0'
      ∧ (∃ tail : List IoCall,
          (embed_image env param w pageno).1.io
            = w.io
              ++ IoCall.fopen_wb
                  ((if param.embed_image then param.tmp_dir else param.dest_dir)
                    ++ "/bg" ++ String.mk h ++ ".png") :: tail)
      ∧ (param.embed_image = false → (embed_image env param w pageno).2 = none →
          (embed_image env param w pageno).1.html.f_curpage
            = w.html.f_curpage
              ++ img_open env param w w.dev.modXMin w.dev.modYMin w.dev.modXMax w.dev.modYMax
              ++ ("bg" ++ String.mk h ++ ".png") ++ "\"/>")
      ∧ (param.embed_image = true →
          (dump_image env param (embed_image_registered param w pageno)
            (embed_image_fn param pageno)
            w.dev.modXMin w.dev.modYMin w.dev.modXMax w.dev.modYMax).2 = none →
          ∃ rest : List IoCall,
            (embed_image env param w pageno).1.io
              = w.io
                ++ IoCall.fopen_wb (param.tmp_dir ++ "/bg" ++ String.mk h ++ ".png") :: rest
                ++ [IoCall.ifstream_open
                      (param.tmp_dir ++ "/bg" ++ String.mk h ++ ".png")]) := by
  obtain ⟨hv, hh⟩ := printf_x_spec pageno h1 h2
  refine ⟨printf_x pageno, hv, hh, ?_, ?_, ?_⟩
  · rw [← embed_image_fn_eq]
    exact embed_image_io_prefix env param w pageno hbox
  · intro hlinked hret
    have hf := embed_image_dump_frame env param w pageno
      w.dev.modXMin w.dev.modYMin w.dev.modXMax w.dev.modYMax
    have hi := (img_frame env param _ w w.dev.modXMin w.dev.modYMin w.dev.modXMax
      w.dev.modYMax hf.2.2.1 hf.1).1
    have hok : (dump_image env param (embed_image_registered param w pageno)
        (embed_image_fn param pageno)
        w.dev.modXMin w.dev.modYMin w.dev.modXMax w.dev.modYMax).2 = none := by
      cases hd : (dump_image env param (embed_image_registered param w pageno)
          (embed_image_fn param pageno)
          w.dev.modXMin w.dev.modYMin w.dev.modXMax w.dev.modYMax).2 with
      | none => rfl
      | some e =>
        rw [embed_image_of_dump_throws env param w pageno e hbox hd] at hret
        simp at hret
    rw [embed_image_of_dump_returns env param w pageno hbox hok]
    simp only [hlinked, Bool.false_eq_true, if_false, str_fmt_bg, hi, hf.2.1]
  · intro hinline hok
    obtain ⟨tail, ht⟩ := dump_image_io_prefix env param (embed_image_registered param w pageno)
      (embed_image_fn param pageno) w.dev.modXMin w.dev.modYMin w.dev.modXMax w.dev.modYMax
      (region_accepted w.dev hbox)
    rw [(embed_image_registered_frame param w pageno).2.1, embed_image_fn_eq, hinline,
      if_pos rfl] at ht
    refine ⟨tail, ?_⟩
    rw [embed_image_of_dump_returns env param w pageno hbox hok]
    simp only [hinline, if_true, str_fmt_dir_bg]
    split_ifs <;> simp only [embed_image_fn_eq, hinline, if_true] <;> rw [ht]

/-- Instance of C6: page 255 of the sample page in linked mode; the file is
`out/bgff.png` and the `src` of the element is `bgff.png`. -/
theorem embed_image_file_name_witness :
    (∃ h : List Char,
      hexValue h = some (255 : Int).toNat
      ∧ h.head? ≠ some '0'
      ∧ (∃ tail : List IoCall,
          (embed_image (sampleEnv true true true true) sampleParam sampleWorld 255).1.io
            = sampleWorld.io
              ++ IoCall.fopen_wb
                  ((if sampleParam.embed_image then sampleParam.tmp_dir
                      else sampleParam.dest_dir)
                    ++ "/bg" ++ String.mk h ++ ".png") :: tail)
      ∧ (sampleParam.embed_image = false →
          (embed_image (sampleEnv true true true true) sampleParam sampleWorld 255).2 = none →
          (embed_image (sampleEnv true true true true) sampleParam sampleWorld
              255).1.html.f_curpage
            = sampleWorld.html.f_curpage
              ++ img_open (sampleEnv true true true true) sampleParam sampleWorld
                  sampleWorld.dev.modXMin sampleWorld.dev.modYMin sampleWorld.dev.modXMax
                  sampleWorld.dev.modYMax
              ++ ("bg" ++ String.mk h ++ ".png") ++ "\"/>")
      ∧ (sampleParam.embed_image = true →
          (dump_image (sampleEnv true true true true) sampleParam
            (embed_image_registered sampleParam sampleWorld 255)
            (embed_image_fn sampleParam 255)
            sampleWorld.dev.modXMin sampleWorld.dev.modYMin sampleWorld.dev.modXMax
            sampleWorld.dev.modYMax).2 = none →
          ∃ rest : List IoCall,
            (embed_image (sampleEnv true true true true) sampleParam sampleWorld 255).1.io
              = sampleWorld.io
                ++ IoCall.fopen_wb (sampleParam.tmp_dir ++ "/bg" ++ String.mk h ++ ".png")
                    :: rest
                ++ [IoCall.ifstream_open
                      (sampleParam.tmp_dir ++ "/bg" ++ String.mk h ++ ".png")]))
      ∧ embed_image_fn sampleParam 255 = "out/bgff.png"
      ∧ str_fmt "bg%x.png" [FmtArg.x 255] = "bgff.png"
      ∧ (embed_image (sampleEnv true true true true) sampleParam sampleWorld 255).1.html.f_curpage
        = "<img class=\"bi x0 y0 w0 h0\" alt=\"\" src=\"bgff.png\"/>" :=
  ⟨embed_image_file_name (sampleEnv true true true true) sampleParam sampleWorld 255
      (by decide) (by decide) (by decide),
    by decide, by decide, by decide⟩

/-- C7: for a non-empty box, with inline embedding the registry after
`embed_image` is the registry before it followed by the one path
`<tmp_dir>/bg<%x of the page number>.png`, whether the call returns or throws;
without inline embedding the registry is the one before the call and the file
opened for writing lies in the destination directory; and for a page number
from 1 to `INT_MAX` the `%x` digits are its lowercase hexadecimal digits
without a leading `0`. -/
theorem embed_image_registry (env : Env) (param : Param) (w : World) (pageno : Int)
    (hbox : w.dev.modXMin ≤ w.dev.modXMax ∧ w.dev.modYMin ≤ w.dev.modYMax) :
    (param.embed_image = true →
        (embed_image env param w pageno).1.html.tmp_files
          = w.html.tmp_files
            ++ [param.tmp_dir ++ "/bg" ++ String.mk (printf_x pageno) ++ ".png"])
      ∧ (param.embed_image = false →
          (embed_image env param w pageno).1.html.tmp_files = w.html.tmp_files
            ∧ ∃ tail : List IoCall,
                (embed_image env param w pageno).1.io
                  = w.io
                    ++ IoCall.fopen_wb
                        (param.dest_dir ++ "/bg" ++ String.mk (printf_x pageno) ++ ".png")
                      :: tail)
      ∧ (1 ≤ pageno → pageno < 2 ^ 31 →
          hexValue (printf_x pageno) = some pageno.toNat
            ∧ (printf_x pageno).head? ≠ some '0') := by
  refine ⟨?_, ?_, printf_x_spec pageno⟩
  · intro hinline
    rw [embed_image_tmp_files env param w pageno hbox]
    simp [embed_image_registered, hinline, HTMLRenderer.tmp_files_add, embed_image_fn_eq]
  · intro hlinked
    constructor
    · rw [embed_image_tmp_files env param w pageno hbox]
      simp [embed_image_registered, hlinked]
    · have h := embed_image_io_prefix env param w pageno hbox
      rw [embed_image_fn_eq] at h
      simpa [hlinked] using h

/-- Instance of C7: page 255 of the sample page with inline embedding and a
temp file that cannot be reopened; the call throws and the registry holds the
one path `/tmp/bgff.png`. -/
theorem embed_image_registry_witness :
    (embed_image (sampleEnv true true true false) sampleParamInline sampleWorld
        255).1.html.tmp_files
      = sampleWorld.html.tmp_files
        ++ [sampleParamInline.tmp_dir ++ "/bg" ++ String.mk (printf_x 255) ++ ".png"]
    ∧ sampleWorld.html.tmp_files
        ++ [sampleParamInline.tmp_dir ++ "/bg" ++ String.mk (printf_x 255) ++ ".png"]
      = ["/tmp/bgff.png"] :=
  ⟨(embed_image_registry (sampleEnv true true true false) sampleParamInline sampleWorld 255
      (by decide)).1 rfl,
    by decide⟩


/-- C2, amended: for a non-empty region, once the image has been written, the
four lengths `embed_image` passes to `install` are the formulas
`xmin * h_scale`, `(H - 1 - ymax) * v_scale`, `(xmax - xmin + 1) * h_scale`
and `(ymax - ymin + 1) * v_scale`, with `h_scale = z * D / h_dpi` and
`v_scale = z * D / v_dpi`, evaluated in double arithmetic, every product,
quotient and difference rounded to the nearest double; each manager receives
that one value and no other.  When `h_dpi` and `v_dpi` are not zero and the
product `z * D`, the two scales and the four final products are themselves
doubles, the lengths are the exact values of the formulas. -/
theorem embed_image_lengths (env : Env) (param : Param) (w : World) (pageno : Int)
    (hbox : w.dev.modXMin ≤ w.dev.modXMax ∧ w.dev.modYMin ≤ w.dev.modYMax)
    (hok : (dump_image env param (embed_image_registered param w pageno)
      (embed_image_fn param pageno)
      w.dev.modXMin w.dev.modYMin w.dev.modXMax w.dev.modYMax).2 = none) :
    (embed_image env param w pageno).1.html.all_manager
        = { left := w.html.all_manager.left
              ++ [double_mul (double_of_int w.dev.modXMin)
                    (double_div (double_mul (some env.text_zoom_factor) (some env.DEFAULT_DPI))
                      param.h_dpi)]
            bottom := w.html.all_manager.bottom
              ++ [double_mul
                    (double_sub
                      (double_sub (double_of_int w.dev.bitmap.height) (double_of_int 1))
                      (double_of_int w.dev.modYMax))
                    (double_div (double_mul (some env.text_zoom_factor) (some env.DEFAULT_DPI))
                      param.v_dpi)]
            width := w.html.all_manager.width
              ++ [double_mul (double_of_int (w.dev.modXMax - w.dev.modXMin + 1))
                    (double_div (double_mul (some env.text_zoom_factor) (some env.DEFAULT_DPI))
                      param.h_dpi)]
            height := w.html.all_manager.height
              ++ [double_mul (double_of_int (w.dev.modYMax - w.dev.modYMin + 1))
                    (double_div (double_mul (some env.text_zoom_factor) (some env.DEFAULT_DPI))
                      param.v_dpi)] }
      ∧ (param.h_dpi ≠ 0 → param.v_dpi ≠ 0 →
          isDouble (env.text_zoom_factor * env.DEFAULT_DPI) →
          isDouble (env.text_zoom_factor * env.DEFAULT_DPI / param.h_dpi) →
          isDouble (env.text_zoom_factor * env.DEFAULT_DPI / param.v_dpi) →
          isDouble ((w.dev.modXMin : ℚ)
            * (env.text_zoom_factor * env.DEFAULT_DPI / param.h_dpi)) →
          isDouble (((w.dev.bitmap.height : ℚ) - 1 - (w.dev.modYMax : ℚ))
            * (env.text_zoom_factor * env.DEFAULT_DPI / param.v_dpi)) →
          isDouble (((w.dev.modXMax : ℚ) - (w.dev.modXMin : ℚ) + 1)
            * (env.text_zoom_factor * env.DEFAULT_DPI / param.h_dpi)) →
          isDouble (((w.dev.modYMax : ℚ) - (w.dev.modYMin : ℚ) + 1)
            * (env.text_zoom_factor * env.DEFAULT_DPI / param.v_dpi)) →
          (embed_image env param w pageno).1.html.all_manager
            = { left := w.html.all_manager.left
                  ++ [some ((w.dev.modXMin : ℚ)
                        * (env.text_zoom_factor * env.DEFAULT_DPI / param.h_dpi))]
                bottom := w.html.all_manager.bottom
                  ++ [some (((w.dev.bitmap.height : ℚ) - 1 - (w.dev.modYMax : ℚ))
                        * (env.text_zoom_factor * env.DEFAULT_DPI / param.v_dpi))]
                width := w.html.all_manager.width
                  ++ [some (((w.dev.modXMax : ℚ) - (w.dev.modXMin : ℚ) + 1)
                        * (env.text_zoom_factor * env.DEFAULT_DPI / param.h_dpi))]
                height := w.html.all_manager.height
                  ++ [some (((w.dev.modYMax : ℚ) - (w.dev.modYMin : ℚ) + 1)
                        * (env.text_zoom_factor * env.DEFAULT_DPI / param.v_dpi))] }) := by
  have hinv := w.dev.inBitmap
  have hext := region_extent w.dev hbox
  have hshape : (embed_image env param w pageno).1.html.all_manager
      = { left := w.html.all_manager.left
            ++ [double_mul (double_of_int w.dev.modXMin)
                  (double_div (double_mul (some env.text_zoom_factor) (some env.DEFAULT_DPI))
                    param.h_dpi)]
          bottom := w.html.all_manager.bottom
            ++ [double_mul
                  (double_sub
                    (double_sub (double_of_int w.dev.bitmap.height) (double_of_int 1))
                    (double_of_int w.dev.modYMax))
                  (double_div (double_mul (some env.text_zoom_factor) (some env.DEFAULT_DPI))
                    param.v_dpi)]
          width := w.html.all_manager.width
            ++ [double_mul (double_of_int (w.dev.modXMax - w.dev.modXMin + 1))
                  (double_div (double_mul (some env.text_zoom_factor) (some env.DEFAULT_DPI))
                    param.h_dpi)]
          height := w.html.all_manager.height
            ++ [double_mul (double_of_int (w.dev.modYMax - w.dev.modYMin + 1))
                  (double_div (double_mul (some env.text_zoom_factor) (some env.DEFAULT_DPI))
                    param.v_dpi)] } := by
    rw [embed_image_all_manager env param w pageno hbox hok]
    unfold img_install img_left img_bottom img_width img_height h_scale v_scale
    rw [hext.1, hext.2]
  refine ⟨hshape, ?_⟩
  intro hh hv hzd hhs hvs hl hb hwd hht
  have e1 : double_mul (some env.text_zoom_factor) (some env.DEFAULT_DPI)
      = some (env.text_zoom_factor * env.DEFAULT_DPI) := hzd
  have e2 : double_div (some (env.text_zoom_factor * env.DEFAULT_DPI)) param.h_dpi
      = some (env.text_zoom_factor * env.DEFAULT_DPI / param.h_dpi) := by
    simp only [double_div, Option.some_bind, if_neg hh]
    exact hhs
  have e3 : double_div (some (env.text_zoom_factor * env.DEFAULT_DPI)) param.v_dpi
      = some (env.text_zoom_factor * env.DEFAULT_DPI / param.v_dpi) := by
    simp only [double_div, Option.some_bind, if_neg hv]
    exact hvs
  have i1 := double_of_int_eq w.dev.modXMin (by omega) (by omega)
  have i2 := double_of_int_eq w.dev.bitmap.height (by omega) (by omega)
  have i3 := double_of_int_eq 1 (by omega) (by omega)
  have i4 := double_of_int_eq w.dev.modYMax (by omega) (by omega)
  have i5 := double_of_int_eq (w.dev.modXMax - w.dev.modXMin + 1) (by omega) (by omega)
  have i6 := double_of_int_eq (w.dev.modYMax - w.dev.modYMin + 1) (by omega) (by omega)
  have s1 : double_sub (some ((w.dev.bitmap.height : Int) : ℚ)) (some ((1 : Int) : ℚ))
      = some ((w.dev.bitmap.height : ℚ) - 1) := by
    have h := double_of_int_eq (w.dev.bitmap.height - 1) (by omega) (by omega)
    simp only [double_of_int] at h
    simp only [double_sub, Option.some_bind]
    push_cast at h ⊢
    exact h
  have s2 : double_sub (some ((w.dev.bitmap.height : ℚ) - 1)) (some ((w.dev.modYMax : Int) : ℚ))
      = some ((w.dev.bitmap.height : ℚ) - 1 - (w.dev.modYMax : ℚ)) := by
    have h := double_of_int_eq (w.dev.bitmap.height - 1 - w.dev.modYMax) (by omega) (by omega)
    simp only [double_of_int] at h
    simp only [double_sub, Option.some_bind]
    push_cast at h ⊢
    exact h
  rw [hshape, e1, e2, e3, i1, i2, i3, i4, i5, i6, s1, s2]
  simp only [double_mul, Option.some_bind]
  push_cast
  rw [show roundDouble ((w.dev.modXMin : ℚ)
        * (env.text_zoom_factor * env.DEFAULT_DPI / param.h_dpi)) = _ from hl,
    show roundDouble (((w.dev.bitmap.height : ℚ) - 1 - (w.dev.modYMax : ℚ))
        * (env.text_zoom_factor * env.DEFAULT_DPI / param.v_dpi)) = _ from hb,
    show roundDouble (((w.dev.modXMax : ℚ) - (w.dev.modXMin : ℚ) + 1)
        * (env.text_zoom_factor * env.DEFAULT_DPI / param.h_dpi)) = _ from hwd,
    show roundDouble (((w.dev.modYMax : ℚ) - (w.dev.modYMin : ℚ) + 1)
        * (env.text_zoom_factor * env.DEFAULT_DPI / param.v_dpi)) = _ from hht]

/-- Instance of C2, amended, the example of the specification: `H = 100`, box
`xmin = 10`, `xmax = 20`, `ymin = 5`, `ymax = 15`, both DPI 96, zoom 1 and
`DEFAULT_DPI = 96`; every intermediate result is an integer, and the lengths
are exactly left 10, bottom 84, width 11, height 11. -/
theorem embed_image_lengths_witness :
    (embed_image (sampleEnv true true true true) sampleParam sampleWorld 255).1.html.all_manager
      = { left := [some 10], bottom := [some 84], width := [some 11], height := [some 11] } := by
  have h := (embed_image_lengths (sampleEnv true true true true) sampleParam sampleWorld 255
    (by decide) (by decide)).2
    (by norm_num [sampleParam]) (by norm_num [sampleParam])
    (by have h := isDouble_int 96 (by norm_num)
        norm_num [sampleEnv] at h ⊢
        exact h)
    (by have h := isDouble_int 1 (by norm_num)
        norm_num [sampleEnv, sampleParam] at h ⊢
        exact h)
    (by have h := isDouble_int 1 (by norm_num)
        norm_num [sampleEnv, sampleParam] at h ⊢
        exact h)
    (by have h := isDouble_int 10 (by norm_num)
        norm_num [sampleEnv, sampleParam, sampleWorld, sampleDev] at h ⊢
        exact h)
    (by have h := isDouble_int 84 (by norm_num)
        norm_num [sampleEnv, sampleParam, sampleWorld, sampleDev] at h ⊢
        exact h)
    (by have h := isDouble_int 11 (by norm_num)
        norm_num [sampleEnv, sampleParam, sampleWorld, sampleDev] at h ⊢
        exact h)
    (by have h := isDouble_int 11 (by norm_num)
        norm_num [sampleEnv, sampleParam, sampleWorld, sampleDev] at h ⊢
        exact h)
  rw [h]
  norm_num [sampleEnv, sampleParam, sampleWorld, sampleDev, sampleHtml]

/-- C2 as stated fails: at 300 dpi with `DEFAULT_DPI = 72` and zoom 1, the box
of the sample page has the exact width `11 * (1 * 72 / 300) = 66 / 25`, but
the width `embed_image` installs is the double `0x1.51eb851eb851ep+1`. -/
theorem embed_image_lengths_rounded :
    (embed_image sampleEnv72 sampleParam300 sampleWorld 255).1.html.all_manager.width
        = [some (2972375754064527 / 1125899906842624)]
      ∧ (embed_image sampleEnv72 sampleParam300 sampleWorld 255).1.html.all_manager.width
        ≠ [some (((20 : ℚ) - 10 + 1) * (1 * 72 / 300))] := by
  have hw : (embed_image sampleEnv72 sampleParam300 sampleWorld 255).1.html.all_manager.width
      = [some (2972375754064527 / 1125899906842624)] := by
    rw [embed_image_all_manager sampleEnv72 sampleParam300 sampleWorld 255 (by decide)
      (by decide)]
    have i1 : double_of_int (int_add (int_sub 20 10) 1) = some 11 := by
      have h := double_of_int_eq 11 (by norm_num) (by norm_num)
      have e : int_add (int_sub 20 10) 1 = 11 := by decide
      rw [e, h]
      norm_num
    have hs : h_scale sampleEnv72 sampleParam300
        = some (1080863910568919 / 4503599627370496) := by
      have h72 : roundDouble ((1 : ℚ) * 72) = some 72 := by
        have h := isDouble_int 72 (by norm_num)
        unfold isDouble at h
        norm_num at h ⊢
        exact h
      simp only [h_scale, double_div, double_mul, sampleEnv72, sampleEnv, sampleParam300,
        sampleParam, Option.some_bind, h72]
      have h := roundDouble_72_300
      norm_num at h ⊢
      exact h
    simp only [img_install, img_width, sampleWorld, sampleDev, sampleHtml, List.nil_append]
    rw [i1, hs]
    simp only [double_mul, Option.some_bind]
    rw [roundDouble_11_scale]
  refine ⟨hw, ?_⟩
  rw [hw]
  norm_num

/-- C8 as stated fails, twice.  Compiled with `NDEBUG`, `dump_image` on a
bitmap that is not 8-bit RGB opens the file, writes the rows and returns.
And for the box `x1 = INT_MAX`, `x2 = INT_MIN`, empty since
`x2 - x1 + 1 <= 0`, the width computed in `int` is 2 and `dump_image` opens
the file and returns. -/
theorem dump_image_accepts :
    sampleWorldBGR.dev.bitmap.mode ≠ SplashColorMode.splashModeRGB8
      ∧ (dump_image sampleEnvNDEBUG sampleParam sampleWorldBGR "out/bg1.png" 10 5 20 15).2
        = none
      ∧ ((-2147483648 : Int) - 2147483647 + 1 ≤ 0)
      ∧ (dump_image (sampleEnv true true true true) sampleParam sampleWorld "out/bg1.png"
          2147483647 0 (-2147483648) 0).2 = none
      ∧ IoCall.fopen_wb "out/bg1.png"
          ∈ (dump_image (sampleEnv true true true true) sampleParam sampleWorld "out/bg1.png"
              2147483647 0 (-2147483648) 0).1.io := by
  decide

/-- C8, amended: when a dimension of the box is empty (`x2 - x1 + 1 <= 0` or
`y2 - y1 + 1 <= 0`) and its difference fits an `int`, `dump_image` throws
"Bad metric for background image" in the state it was called in, so no
`fopen` has been made and no file is created or truncated.  When assertions
are compiled in and the colour mode of the bitmap is not 8-bit RGB,
`dump_image` does not return; if the box is accepted, the file opens and the
writer initialises, it ends in the `abort` of the failed `assert`, after the
`fopen` and the `init`. -/
theorem dump_image_rejects (env : Env) (param : Param) (w : World) (filename : String)
    (x1 y1 x2 y2 : Int) :
    (((x2 - x1 + 1 ≤ 0 ∧ -2147483648 ≤ x2 - x1)
        ∨ (y2 - y1 + 1 ≤ 0 ∧ -2147483648 ≤ y2 - y1)) →
      dump_image env param w filename x1 y1 x2 y2
        = (w, some (Thrown.cstr "Bad metric for background image")))
    ∧ (env.NDEBUG = false → w.dev.bitmap.mode ≠ SplashColorMode.splashModeRGB8 →
        (dump_image env param w filename x1 y1 x2 y2).2 ≠ none)
    ∧ (env.NDEBUG = false → w.dev.bitmap.mode ≠ SplashColorMode.splashModeRGB8 →
        ¬ (int_add (int_sub x2 x1) 1 ≤ 0 ∨ int_add (int_sub y2 y1) 1 ≤ 0) →
        env.fopen_wb_ok filename = true →
        env.png_init_ok (int_add (int_sub x2 x1) 1) (int_add (int_sub y2 y1) 1)
          param.h_dpi param.v_dpi = true →
        dump_image env param w filename x1 y1 x2 y2
          = ({ w with io := w.io
                ++ [IoCall.fopen_wb filename]
                ++ [IoCall.png_init (int_add (int_sub x2 x1) 1) (int_add (int_sub y2 y1) 1)
                      param.h_dpi param.v_dpi] },
             some (Thrown.abort "bitmap->getMode() == splashModeRGB8"))) := by
  refine ⟨?_, ?_, ?_⟩
  · intro h
    have hb : int_add (int_sub x2 x1) 1 ≤ 0 ∨ int_add (int_sub y2 y1) 1 ≤ 0 := by
      rcases h with ⟨h1, h2⟩ | ⟨h1, h2⟩
      · exact Or.inl (int_extent_nonpos x1 x2 h1 h2)
      · exact Or.inr (int_extent_nonpos y1 y2 h1 h2)
    unfold dump_image
    simp only [hb, if_true]
  · intro hn hm
    unfold dump_image
    simp only []
    split_ifs with h1 h2 h3 h4 h5 <;> simp
    exact h4 ⟨hn, hm⟩
  · intro hn hm hb ho hi
    unfold dump_image
    simp only [hb, if_false, ho, hi, Bool.not_true, Bool.false_eq_true, hn, hm, ne_eq,
      not_false_eq_true, and_self, if_true]

/-- Instance of C8, amended: the inverted box `x1 = 4`, `x2 = 3` throws in the
state of the call, with no call recorded; and with assertions compiled in,
the sample box on a bitmap that is not 8-bit RGB does not return. -/
theorem dump_image_rejects_witness :
    dump_image (sampleEnv true true true true) sampleParam sampleWorld "out/bg1.png" 4 0 3 0
        = (sampleWorld, some (Thrown.cstr "Bad metric for background image"))
      ∧ (dump_image (sampleEnv true true true true) sampleParam sampleWorldBGR "out/bg1.png"
          10 5 20 15).2 ≠ none :=
  ⟨(dump_image_rejects (sampleEnv true true true true) sampleParam sampleWorld "out/bg1.png"
      4 0 3 0).1 (Or.inl ⟨by decide, by decide⟩),
   (dump_image_rejects (sampleEnv true true true true) sampleParam sampleWorldBGR
      "out/bg1.png" 10 5 20 15).2.1 rfl (by decide)⟩

/-- C9 as stated fails: on the bitmap of 100000 by 10000 pixels with 300000
bytes per scanline, for the box `x1 = 0`, `y1 = 8000`, `x2 = 0`, `y2 = 8001`,
the product `y1 * row_size` does not fit an `int`, and the first row handed
to the writer starts at offset -1894967296, not at
`(y1 + 0) * row_size + 3 * x1 = 2400000000`. -/
theorem dump_image_rows_wrapped :
    IoCall.png_writePointers [-1894967296, -1894667296] 2
        ∈ (dump_image (sampleEnv true true true true) sampleParam largeWorld "out/bg1.png"
            0 8000 0 8001).1.io
      ∧ ((8000 : Int) + 0) * largeWorld.dev.bitmap.rowSize + 3 * 0 = 2400000000
      ∧ (-1894967296 : Int) ≠ 2400000000 := by
  decide

/-- C9, amended: for a non-empty box whose extents `x2 - x1 + 1` and
`y2 - y1 + 1` and whose products `y1 * row_size` and `x1 * 3` fit an `int`,
once the file is open, the writer initialised and the `assert` passed or
compiled out, the writer was initialised with `width = x2 - x1 + 1`,
`height = y2 - y1 + 1` and the configured horizontal and vertical DPI, and
the rows handed to `writePointers` are exactly `height` addresses of which
the `i`-th is `(y1 + i) * row_size + 3 * x1`. -/
theorem dump_image_rows (env : Env) (param : Param) (w : World) (filename : String)
    (x1 y1 x2 y2 : Int) (hx : x1 ≤ x2) (hy : y1 ≤ y2)
    (hwidth : x2 - x1 + 1 < 2147483648) (hheight : y2 - y1 + 1 < 2147483648)
    (hrow : -2147483648 ≤ y1 * w.dev.bitmap.rowSize
      ∧ y1 * w.dev.bitmap.rowSize < 2147483648)
    (hcol : -2147483648 ≤ x1 * 3 ∧ x1 * 3 < 2147483648)
    (hopen : env.fopen_wb_ok filename = true)
    (hinit : env.png_init_ok (x2 - x1 + 1) (y2 - y1 + 1) param.h_dpi param.v_dpi = true)
    (hmode : env.NDEBUG = true ∨ w.dev.bitmap.mode = SplashColorMode.splashModeRGB8) :
    ∃ (pointers : List Int) (tail : List IoCall),
      (dump_image env param w filename x1 y1 x2 y2).1.io
        = w.io
          ++ [IoCall.fopen_wb filename,
              IoCall.png_init (x2 - x1 + 1) (y2 - y1 + 1) param.h_dpi param.v_dpi,
              IoCall.png_writePointers pointers (y2 - y1 + 1)]
          ++ tail
      ∧ (pointers.length : Int) = y2 - y1 + 1
      ∧ ∀ i : Nat, (i : Int) < y2 - y1 + 1 →
          pointers[i]? = some ((y1 + (i : Int)) * w.dev.bitmap.rowSize + 3 * x1) := by
  have ew := int_extent x1 x2 hx hwidth
  have eh := int_extent y1 y2 hy hheight
  have er : int_mul y1 w.dev.bitmap.rowSize = y1 * w.dev.bitmap.rowSize :=
    wrap32_of_fits _ hrow.1 hrow.2
  have ec : int_mul x1 3 = x1 * 3 := wrap32_of_fits _ hcol.1 hcol.2
  obtain ⟨tail, ht⟩ := dump_image_reaches_write env param w filename x1 y1 x2 y2
    (by rw [ew, eh]; omega) hopen (by rw [ew, eh]; exact hinit) hmode
  rw [ew, eh, er, ec] at ht
  refine ⟨_, tail, ht, ?_, ?_⟩
  · simp only [List.length_map, List.length_range]
    omega
  · intro i hi
    have hi2 : i < (y2 - y1 + 1).toNat := by omega
    simp only [List.getElem?_map, List.getElem?_range hi2, Option.map_some', Option.some.injEq]
    ring

/-- Instance of C9, amended: the box of the sample page, eleven scanlines from
scanline 5 at pixel 10 with a stride of 600 bytes. -/
theorem dump_image_rows_witness :
    ∃ (pointers : List Int) (tail : List IoCall),
      (dump_image (sampleEnv true true true true) sampleParam sampleWorld "out/bg1.png"
          10 5 20 15).1.io
        = sampleWorld.io
          ++ [IoCall.fopen_wb "out/bg1.png",
              IoCall.png_init (20 - 10 + 1) (15 - 5 + 1) sampleParam.h_dpi sampleParam.v_dpi,
              IoCall.png_writePointers pointers (15 - 5 + 1)]
          ++ tail
      ∧ (pointers.length : Int) = 15 - 5 + 1
      ∧ ∀ i : Nat, (i : Int) < 15 - 5 + 1 →
          pointers[i]? = some ((5 + (i : Int)) * sampleWorld.dev.bitmap.rowSize + 3 * 10) :=
  dump_image_rows (sampleEnv true true true true) sampleParam sampleWorld "out/bg1.png"
    10 5 20 15 (by decide) (by decide) (by decide) (by decide) (by decide) (by decide)
    rfl rfl (Or.inr rfl)

/-- C10 as stated fails: the bitmap of 100000 by 10000 pixels with 300000
bytes per scanline and the box `x1 = 0`, `y1 = 8000`, `x2 = 0`, `y2 = 8001`
meet every condition of the claim, and the rows handed to the writer start at
negative offsets, before the pixel buffer. -/
theorem dump_image_rows_out_of_bounds :
    3 * largeWorld.dev.bitmap.width ≤ largeWorld.dev.bitmap.rowSize
      ∧ (0 : Int) ≤ 0 ∧ (0 : Int) ≤ 0 ∧ 0 < largeWorld.dev.bitmap.width
      ∧ (0 : Int) ≤ 8000 ∧ (8000 : Int) ≤ 8001 ∧ 8001 < largeWorld.dev.bitmap.height
      ∧ (dump_image (sampleEnv true true true true) sampleParam largeWorld "out/bg1.png"
          0 8000 0 8001).1.io
        = [IoCall.fopen_wb "out/bg1.png",
           IoCall.png_init 1 2 sampleParam.h_dpi sampleParam.v_dpi,
           IoCall.png_writePointers [-1894967296, -1894667296] 2,
           IoCall.png_delete, IoCall.fclose "out/bg1.png"]
      ∧ (-1894967296 : Int) < 0 ∧ (-1894667296 : Int) < 0 := by
  decide

/-- C10, amended: in a bitmap whose row stride is at least three bytes per
pixel of its width and whose buffer length `row_size * height` fits an `int`,
for a box with `0 <= x1 <= x2 < width` and `0 <= y1 <= y2 < height`, every
row handed to the writer lies inside the pixel buffer: the `i`-th row starts
at the non-negative offset `p = (y1 + i) * row_size + 3 * x1`, and its
`3 * (x2 - x1 + 1)` bytes stay within scanline `y1 + i` and end at or before
`row_size * height`. -/
theorem dump_image_rows_in_bounds (env : Env) (param : Param) (w : World) (filename : String)
    (x1 y1 x2 y2 : Int)
    (hstride : 3 * w.dev.bitmap.width ≤ w.dev.bitmap.rowSize)
    (hbuf : w.dev.bitmap.rowSize * w.dev.bitmap.height < 2147483648)
    (hx1 : 0 ≤ x1) (hx : x1 ≤ x2) (hx2 : x2 < w.dev.bitmap.width)
    (hy1 : 0 ≤ y1) (hy : y1 ≤ y2) (hy2 : y2 < w.dev.bitmap.height)
    (hopen : env.fopen_wb_ok filename = true)
    (hinit : env.png_init_ok (x2 - x1 + 1) (y2 - y1 + 1) param.h_dpi param.v_dpi = true)
    (hmode : env.NDEBUG = true ∨ w.dev.bitmap.mode = SplashColorMode.splashModeRGB8) :
    ∃ (pointers : List Int) (tail : List IoCall),
      (dump_image env param w filename x1 y1 x2 y2).1.io
        = w.io
          ++ [IoCall.fopen_wb filename,
              IoCall.png_init (x2 - x1 + 1) (y2 - y1 + 1) param.h_dpi param.v_dpi,
              IoCall.png_writePointers pointers (y2 - y1 + 1)]
          ++ tail
      ∧ ∀ i : Nat, (i : Int) < y2 - y1 + 1 →
          ∃ p : Int, pointers[i]? = some p
            ∧ p = (y1 + (i : Int)) * w.dev.bitmap.rowSize + 3 * x1
            ∧ 0 ≤ p
            ∧ (y1 + (i : Int)) * w.dev.bitmap.rowSize ≤ p
            ∧ p + 3 * (x2 - x1 + 1) ≤ (y1 + (i : Int) + 1) * w.dev.bitmap.rowSize
            ∧ p + 3 * (x2 - x1 + 1) ≤ w.dev.bitmap.rowSize * w.dev.bitmap.height := by
  have hrs : 0 ≤ w.dev.bitmap.rowSize := by omega
  have hrs3 : 3 ≤ w.dev.bitmap.rowSize := by omega
  have hH : 1 ≤ w.dev.bitmap.height := by omega
  have hy1rs : 0 ≤ y1 * w.dev.bitmap.rowSize := mul_nonneg hy1 hrs
  have hyH : (y1 + 1) * w.dev.bitmap.rowSize
      ≤ w.dev.bitmap.height * w.dev.bitmap.rowSize :=
    mul_le_mul_of_nonneg_right (by omega) hrs
  have hy1e : (y1 + 1) * w.dev.bitmap.rowSize
      = y1 * w.dev.bitmap.rowSize + w.dev.bitmap.rowSize := by ring
  have hcomm : w.dev.bitmap.rowSize * w.dev.bitmap.height
      = w.dev.bitmap.height * w.dev.bitmap.rowSize := mul_comm _ _
  have hHrs : 1 * w.dev.bitmap.rowSize ≤ w.dev.bitmap.height * w.dev.bitmap.rowSize :=
    mul_le_mul_of_nonneg_right hH hrs
  have hHle : w.dev.bitmap.height * 1 ≤ w.dev.bitmap.height * w.dev.bitmap.rowSize :=
    mul_le_mul_of_nonneg_left (by omega) (by omega)
  have ew := int_extent x1 x2 hx (by omega)
  have eh := int_extent y1 y2 hy (by omega)
  have er : int_mul y1 w.dev.bitmap.rowSize = y1 * w.dev.bitmap.rowSize :=
    wrap32_of_fits _ (by omega) (by omega)
  have ec : int_mul x1 3 = x1 * 3 := wrap32_of_fits _ (by omega) (by omega)
  obtain ⟨tail, ht⟩ := dump_image_reaches_write env param w filename x1 y1 x2 y2
    (by rw [ew, eh]; omega) hopen (by rw [ew, eh]; exact hinit) hmode
  rw [ew, eh, er, ec] at ht
  refine ⟨_, tail, ht, ?_⟩
  intro i hi
  have hi2 : i < (y2 - y1 + 1).toNat := by omega
  have hi0 : (0 : Int) ≤ (i : Int) := Int.ofNat_nonneg i
  have hrow : 0 ≤ (y1 + (i : Int)) * w.dev.bitmap.rowSize :=
    mul_nonneg (by omega) hrs
  have hnext : (y1 + (i : Int) + 1) * w.dev.bitmap.rowSize
      = (y1 + (i : Int)) * w.dev.bitmap.rowSize + w.dev.bitmap.rowSize := by ring
  have hlast : (y1 + (i : Int) + 1) * w.dev.bitmap.rowSize
      ≤ w.dev.bitmap.height * w.dev.bitmap.rowSize :=
    mul_le_mul_of_nonneg_right (by omega) hrs
  refine ⟨(y1 + (i : Int)) * w.dev.bitmap.rowSize + 3 * x1, ?_, rfl, ?_, ?_, ?_, ?_⟩
  · simp only [List.getElem?_map, List.getElem?_range hi2, Option.map_some', Option.some.injEq]
    ring
  · omega
  · omega
  · omega
  · omega

/-- Instance of C10, amended: the box of the sample page inside its bitmap of
200 by 100 pixels with a stride of 600 bytes, a buffer of 60000 bytes. -/
theorem dump_image_rows_in_bounds_witness :
    ∃ (pointers : List Int) (tail : List IoCall),
      (dump_image (sampleEnv true true true true) sampleParam sampleWorld "out/bg1.png"
          10 5 20 15).1.io
        = sampleWorld.io
          ++ [IoCall.fopen_wb "out/bg1.png",
              IoCall.png_init (20 - 10 + 1) (15 - 5 + 1) sampleParam.h_dpi sampleParam.v_dpi,
              IoCall.png_writePointers pointers (15 - 5 + 1)]
          ++ tail
      ∧ ∀ i : Nat, (i : Int) < 15 - 5 + 1 →
          ∃ p : Int, pointers[i]? = some p
            ∧ p = (5 + (i : Int)) * sampleWorld.dev.bitmap.rowSize + 3 * 10
            ∧ 0 ≤ p
            ∧ (5 + (i : Int)) * sampleWorld.dev.bitmap.rowSize ≤ p
            ∧ p + 3 * (20 - 10 + 1) ≤ (5 + (i : Int) + 1) * sampleWorld.dev.bitmap.rowSize
            ∧ p + 3 * (20 - 10 + 1)
                ≤ sampleWorld.dev.bitmap.rowSize * sampleWorld.dev.bitmap.height :=
  dump_image_rows_in_bounds (sampleEnv true true true true) sampleParam sampleWorld
    "out/bg1.png" 10 5 20 15 (by decide) (by decide) (by decide) (by decide) (by decide)
    (by decide) (by decide) (by decide) rfl rfl (Or.inr rfl)

end pdf2htmlEX
